import Mathlib

/-!
# Thermometer: threshold evaluation with hysteresis

A shallow embedding of `src/thermometer.ts` (class `Thermometer`) and proofs about its
threshold-evaluation engine.

Modelling conventions.

* A JavaScript `number` is a `JSNumber`: `NaN`, the two infinities, or a finite value, which is
  an exact rational.  Rounding of finite arithmetic and the sign of zero are abstracted away.
  Comparisons are `Bool`-valued and are `false` as soon as one operand is `NaN`.
* `Map<Symbol, Threshold>` is an association list in insertion order, the order in which a
  JavaScript `Map` is iterated.  `Symbol()` is a counter kept next to the registry
  (`symbolCounter`); it is the only field of the state that the class does not declare.
* A callback is a function from the event it receives to `Except String Unit`:
  `.ok ()` when it returns normally, `.error msg` when it throws `Error(msg)`.  Callbacks that
  call back into the thermometer are outside the model.
* A method that throws returns its error next to the state the object is left in, since
  JavaScript keeps every assignment made before the `throw`.
* `fetchTemperature` takes what its `await`ed calls produce as an argument (`FetchResult`):
  the network and the parsing of the body are outside the class.
-/

namespace Thermo

/-! ## Numbers -/

/-- A JavaScript `number`. -/
inductive JSNumber where
  | nan
  | negInf
  | fin (q : ℚ)
  | posInf
  deriving DecidableEq

namespace JSNumber

instance : Inhabited JSNumber := ⟨fin 0⟩

instance : OfNat JSNumber n := ⟨fin n⟩

/-- The global function `isNaN` on a value of type `number`. -/
def isNaN : JSNumber → Bool
  | nan => true
  | _ => false

/-- Unary minus. -/
def neg : JSNumber → JSNumber
  | nan => nan
  | negInf => posInf
  | fin q => fin (-q)
  | posInf => negInf

/-- The operator `+`. -/
def add : JSNumber → JSNumber → JSNumber
  | nan, _ => nan
  | _, nan => nan
  | fin a, fin b => fin (a + b)
  | fin _, negInf => negInf
  | fin _, posInf => posInf
  | negInf, fin _ => negInf
  | posInf, fin _ => posInf
  | negInf, negInf => negInf
  | posInf, posInf => posInf
  | negInf, posInf => nan
  | posInf, negInf => nan

/-- The operator `-`. -/
def sub (a b : JSNumber) : JSNumber := add a (neg b)

/-- The operator `<`. -/
def lt : JSNumber → JSNumber → Bool
  | nan, _ => false
  | _, nan => false
  | fin a, fin b => decide (a < b)
  | negInf, negInf => false
  | negInf, _ => true
  | _, negInf => false
  | posInf, _ => false
  | _, posInf => true

/-- The operator `<=`. -/
def le : JSNumber → JSNumber → Bool
  | nan, _ => false
  | _, nan => false
  | fin a, fin b => decide (a ≤ b)
  | negInf, _ => true
  | _, negInf => false
  | _, posInf => true
  | posInf, _ => false

/-- The operator `>`. -/
def gt (a b : JSNumber) : Bool := lt b a

/-- The operator `>=`. -/
def ge (a b : JSNumber) : Bool := le b a

/-- The sign of a number that is neither `NaN` nor zero: `true` when it is negative. -/
def isNegative : JSNumber → Bool
  | negInf => true
  | fin q => decide (q < 0)
  | _ => false

/-- The operator `*`. -/
def mul : JSNumber → JSNumber → JSNumber
  | nan, _ => nan
  | _, nan => nan
  | fin a, fin b => fin (a * b)
  | a, b =>
    if a = fin 0 ∨ b = fin 0 then nan
    else if isNegative a = isNegative b then posInf else negInf

/-- The operator `/`. -/
def div : JSNumber → JSNumber → JSNumber
  | nan, _ => nan
  | _, nan => nan
  | fin a, fin b =>
    if b = 0 then
      if a = 0 then nan else if a < 0 then negInf else posInf
    else fin (a / b)
  | fin _, _ => fin 0
  | a, fin b => if isNegative a = decide (b < 0) then posInf else negInf
  | _, _ => nan

end JSNumber

/-! ## Data model -/

/-- The enum `Direction`. -/
inductive Direction where
  | INCREASING
  | DECREASING
  | BOTH
  deriving DecidableEq

/-- The interface `ThresholdCallback`: the event handed to a callback. -/
structure ThresholdCallback where
  temperature : JSNumber
  threshold : JSNumber
  direction : Direction
  deriving DecidableEq

/-- The type of the `callback` field. -/
abbrev Callback := ThresholdCallback → Except String Unit

/-- The interface `ThresholdConfig`; an absent optional field is `none`. -/
structure ThresholdConfig where
  temp : JSNumber
  callback : Callback
  direction : Option Direction := none
  tolerance : Option JSNumber := none

/-- The interface `Threshold`. -/
structure Threshold where
  temp : JSNumber
  callback : Callback
  direction : Direction
  tolerance : JSNumber
  lastTriggered : Bool

/-- A value made by `Symbol()`. -/
abbrev Symbol := Nat

/-- The entries of a `Map<Symbol, Threshold>`, in insertion order. -/
abbrev ThresholdMap := List (Symbol × Threshold)

namespace ThresholdMap

/-- The method `Map.prototype.set`: an existing key keeps its place, a new key goes last. -/
def set (id : Symbol) (t : Threshold) : ThresholdMap → ThresholdMap
  | [] => [(id, t)]
  | (k, v) :: rest => if k = id then (id, t) :: rest else (k, v) :: set id t rest

/-- The method `Map.prototype.has`. -/
def has (m : ThresholdMap) (id : Symbol) : Bool := m.any (fun e => e.1 == id)

/-- The method `Map.prototype.get`. -/
def get? (m : ThresholdMap) (id : Symbol) : Option Threshold :=
  (m.find? (fun e => e.1 == id)).map Prod.snd

/-- The method `Map.prototype.delete`: the map without the key, and whether it was there. -/
def delete (m : ThresholdMap) (id : Symbol) : ThresholdMap × Bool :=
  (m.filter (fun e => e.1 != id), has m id)

end ThresholdMap

/-- The fields of the class `Thermometer`, and the supply of symbols. -/
structure Thermometer where
  currentTemp : JSNumber
  previousTemp : JSNumber
  thresholds : ThresholdMap
  defaultTolerance : JSNumber
  initialized : Bool
  symbolCounter : Nat

/-- One call of a callback: the key of the threshold and the event it was given. -/
abbrev Call := Symbol × ThresholdCallback

/-- What a `void` method leaves behind: the object, the callback calls it made in order, and
the error it threw, if any. -/
structure Outcome where
  self : Thermometer
  calls : List Call
  error : Option String

namespace Thermometer

/-- The `constructor`. -/
def new : Thermometer :=
  { currentTemp := 0
    previousTemp := 0
    initialized := false
    thresholds := []
    defaultTolerance := .fin (1 / 2)
    symbolCounter := 0 }

/-- The constant `isWithinTriggerTempRange` of `checkThresholds`. -/
def isWithinTriggerTempRange (currentTemp : JSNumber) (threshold : Threshold) : Bool :=
  let lowerToleranceTemp := threshold.temp.sub threshold.tolerance
  let upperToleranceTemp := threshold.temp.add threshold.tolerance
  currentTemp.ge lowerToleranceTemp && currentTemp.le upperToleranceTemp

/-- The constant `isIncreasing` of `checkThresholds`. -/
def isIncreasing (self : Thermometer) : Bool :=
  self.initialized && self.currentTemp.gt self.previousTemp

/-- The constant `isDecreasing` of `checkThresholds`. -/
def isDecreasing (self : Thermometer) : Bool :=
  self.initialized && self.currentTemp.lt self.previousTemp

/-- The constant `isMatchingDirection` of `checkThresholds`. -/
def isMatchingDirection (self : Thermometer) (direction : Direction) : Bool :=
  (direction == Direction.INCREASING && self.isIncreasing) ||
  (direction == Direction.DECREASING && self.isDecreasing) ||
  (direction == Direction.BOTH)

/-- The `direction` field of the event built in `checkThresholds`. -/
def resolvedDirection (self : Thermometer) : Direction :=
  if self.isIncreasing then Direction.INCREASING
  else if self.isDecreasing then Direction.DECREASING
  else Direction.BOTH

/-- The event built in `checkThresholds` for a threshold that fires. -/
def eventFor (self : Thermometer) (threshold : Threshold) : ThresholdCallback :=
  { temperature := self.currentTemp
    threshold := threshold.temp
    direction := self.resolvedDirection }

/-- Whether the loop body of `checkThresholds` reaches the call of the callback: the `continue`
guard is not taken and the condition of the `if` holds. -/
def fires (self : Thermometer) (threshold : Threshold) : Bool :=
  !(!self.initialized && threshold.direction != Direction.BOTH) &&
  (isWithinTriggerTempRange self.currentTemp threshold &&
    self.isMatchingDirection threshold.direction && !threshold.lastTriggered)

/-- How one pass through the loop body of `checkThresholds` ends. -/
inductive BodyResult where
  /-- The body ran to its end or hit `continue`: the threshold afterwards, and the event of
  the callback call it made, if any. -/
  | next (threshold : Threshold) (call : Option ThresholdCallback)
  /-- The callback was called with `call` and threw `Error(msg)`. -/
  | thrown (msg : String) (call : ThresholdCallback)

/-- The body of the `for` loop of `checkThresholds` for one entry of the map.  `self` supplies
`currentTemp`, `previousTemp` and `initialized`, which the loop only reads. -/
def checkBody (self : Thermometer) (threshold : Threshold) : BodyResult :=
  if !self.initialized && threshold.direction != Direction.BOTH then
    .next threshold none
  else if isWithinTriggerTempRange self.currentTemp threshold &&
      self.isMatchingDirection threshold.direction && !threshold.lastTriggered then
    match threshold.callback (self.eventFor threshold) with
    | .error msg => .thrown msg (self.eventFor threshold)
    | .ok _ => .next { threshold with lastTriggered := true } (some (self.eventFor threshold))
  else if !isWithinTriggerTempRange self.currentTemp threshold then
    .next { threshold with lastTriggered := false } none
  else
    .next threshold none

/-- What the loop of `checkThresholds` leaves behind: the entries of the map, the calls made,
and the error that ended the loop. -/
structure LoopResult where
  entries : ThresholdMap
  calls : List Call
  error : Option String

/-- The `for` loop of `checkThresholds` over the entries not yet visited; a callback that
throws ends it. -/
def checkLoop (self : Thermometer) : ThresholdMap → LoopResult
  | [] => ⟨[], [], none⟩
  | (id, threshold) :: rest =>
    match checkBody self threshold with
    | .thrown msg call => ⟨(id, threshold) :: rest, [(id, call)], some msg⟩
    | .next threshold1 call =>
      let r := checkLoop self rest
      ⟨(id, threshold1) :: r.entries, (call.map (fun e => (id, e))).toList ++ r.calls, r.error⟩

/-- The method `checkThresholds`. -/
def checkThresholds (self : Thermometer) : Outcome :=
  let r := checkLoop self self.thresholds
  ⟨{ self with thresholds := r.entries }, r.calls, r.error⟩

/-- The method `setTemperature`. -/
def setTemperature (self : Thermometer) (celsius : JSNumber) : Outcome :=
  if celsius.isNaN then
    ⟨self, [], some "Temperature must be a number"⟩
  else
    let self1 := { self with previousTemp := self.currentTemp }
    let self2 := { self1 with currentTemp := celsius }
    let r := self2.checkThresholds
    match r.error with
    | some msg => ⟨r.self, r.calls, some msg⟩
    | none => ⟨{ r.self with initialized := true }, r.calls, none⟩

/-- The method `getCelsius`. -/
def getCelsius (self : Thermometer) : Except String JSNumber :=
  if !self.initialized then .error "Temperature has not been set"
  else .ok self.currentTemp

/-- The method `getFahrenheit`. -/
def getFahrenheit (self : Thermometer) : Except String JSNumber :=
  if !self.initialized then .error "Temperature has not been set"
  else .ok (((self.currentTemp.mul 9).div 5).add 32)

/-- The method `addThreshold`: the object afterwards and the symbol returned. -/
def addThreshold (self : Thermometer) (config : ThresholdConfig) : Thermometer × Symbol :=
  let direction := config.direction.getD Direction.BOTH
  let tolerance := config.tolerance.getD self.defaultTolerance
  let id : Symbol := self.symbolCounter
  ({ self with
      symbolCounter := self.symbolCounter + 1
      thresholds := self.thresholds.set id
        { temp := config.temp
          callback := config.callback
          direction := direction
          tolerance := tolerance
          lastTriggered := false } },
    id)

/-- The method `removeThreshold`: the object afterwards and the boolean returned. -/
def removeThreshold (self : Thermometer) (id : Symbol) : Thermometer × Bool :=
  let r := self.thresholds.delete id
  ({ self with thresholds := r.1 }, r.2)

end Thermometer

/-! ## The remote reading -/

/-- What `fetchTemperature` gets from the outside: `fetch(url)` rejects with an error of the
given message, or it resolves to a response with its `ok` flag and `status`; `body` is what
reading the response gives, the number `Number(data.current.temperature_2m)` or the message
of the error thrown by `response.json()` or by the access to `data.current`. -/
inductive FetchResult where
  | rejected (message : String)
  | response (ok : Bool) (status : Nat) (body : Except String JSNumber)

/-- The method `fetchTemperature`, given what the `await`ed calls produce; `self` is the
thermometer when the method resumes after them. -/
def Thermometer.fetchTemperature (self : Thermometer) : FetchResult → Outcome
  | .rejected message => ⟨self, [], some ("Failed to fetch temperature: " ++ message)⟩
  | .response ok status body =>
    if !ok then
      ⟨self, [],
        some ("Failed to fetch temperature: " ++ ("HTTP error! status: " ++ toString status))⟩
    else
      match body with
      | .error message => ⟨self, [], some ("Failed to fetch temperature: " ++ message)⟩
      | .ok temperature =>
        if temperature.isNaN then
          ⟨self, [],
            some ("Failed to fetch temperature: " ++ "Invalid temperature value fetched")⟩
        else
          let r := self.setTemperature temperature
          match r.error with
          | some message => ⟨r.self, r.calls, some ("Failed to fetch temperature: " ++ message)⟩
          | none => ⟨r.self, r.calls, none⟩

/-! ## Sequences of calls -/

/-- A call of one of the public methods that change a thermometer. -/
inductive Op where
  | setTemperature (celsius : JSNumber)
  | addThreshold (config : ThresholdConfig)
  | removeThreshold (id : Symbol)

/-- What a call gives back to its caller. -/
inductive Returned where
  | void
  | symbol (id : Symbol)
  | boolean (b : Bool)
  | thrown (msg : String)
  deriving DecidableEq

/-- The thermometer after a call, the callback calls made during it, and what it gave back. -/
structure StepResult where
  self : Thermometer
  calls : List Call
  returned : Returned

/-- One call on a thermometer. -/
def step (self : Thermometer) : Op → StepResult
  | .setTemperature celsius =>
    let r := self.setTemperature celsius
    ⟨r.self, r.calls, match r.error with | some msg => .thrown msg | none => .void⟩
  | .addThreshold config =>
    let r := self.addThreshold config
    ⟨r.1, [], .symbol r.2⟩
  | .removeThreshold id =>
    let r := self.removeThreshold id
    ⟨r.1, [], .boolean r.2⟩

/-- The results of a sequence of calls, one per call; a caller goes on after a call that
throws. -/
def run (self : Thermometer) : List Op → List StepResult
  | [] => []
  | op :: ops => step self op :: run (step self op).self ops

/-- The thermometer after a sequence of calls. -/
def exec (self : Thermometer) : List Op → Thermometer
  | [] => self
  | op :: ops => exec (step self op).self ops

/-- A thermometer that a program can hold: a new one after some sequence of calls. -/
def Reachable (self : Thermometer) : Prop := ∃ ops : List Op, exec Thermometer.new ops = self

/-- The events in `calls` that went to the callback of the threshold `id`. -/
def eventsOf (id : Symbol) (calls : List Call) : List ThresholdCallback :=
  (calls.filter (fun c => c.1 == id)).map Prod.snd

/-- The latch `lastTriggered` of the threshold `id`, when it is registered. -/
def latchOf (self : Thermometer) (id : Symbol) : Option Bool :=
  (self.thresholds.get? id).map (fun t => t.lastTriggered)

/-- The arguments of the `setTemperature` calls of a sequence, in order. -/
def readingsOf : List Op → List JSNumber
  | [] => []
  | .setTemperature celsius :: ops => celsius :: readingsOf ops
  | _ :: ops => readingsOf ops

/-- What the threshold `id` shows at each `setTemperature` call of a sequence: the events its
callback received during the call, and its latch after the call. -/
def observe (id : Symbol) (self : Thermometer) :
    List Op → List (List ThresholdCallback × Option Bool)
  | [] => []
  | .setTemperature celsius :: ops =>
    let r := step self (.setTemperature celsius)
    (eventsOf id r.calls, latchOf r.self id) :: observe id r.self ops
  | op :: ops => observe id (step self op).self ops

/-! ## Auxiliary notions used in the statements -/

namespace Thermometer

/-- The threshold after one pass through the loop body of `checkThresholds` whose callback,
if called, returns normally. -/
def afterBody (self : Thermometer) (threshold : Threshold) : Threshold :=
  if !self.initialized && threshold.direction != Direction.BOTH then threshold
  else if isWithinTriggerTempRange self.currentTemp threshold &&
      self.isMatchingDirection threshold.direction && !threshold.lastTriggered then
    { threshold with lastTriggered := true }
  else if !isWithinTriggerTempRange self.currentTemp threshold then
    { threshold with lastTriggered := false }
  else threshold

/-- The two assignments of `setTemperature` that precede the call of `checkThresholds`. -/
def record (self : Thermometer) (celsius : JSNumber) : Thermometer :=
  { self with previousTemp := self.currentTemp, currentTemp := celsius }

end Thermometer

/-- The keys of a map, in iteration order. -/
def ThresholdMap.keys (m : ThresholdMap) : List Symbol := m.map Prod.fst

/-- No callback of a registered threshold ever throws. -/
def CallbacksOk (m : ThresholdMap) : Prop :=
  ∀ e ∈ m, ∀ ev : ThresholdCallback, e.2.callback ev = Except.ok ()

/-- No callback registered by a call of the sequence ever throws. -/
def OpsOk : List Op → Prop
  | [] => True
  | .addThreshold config :: ops =>
    (∀ ev : ThresholdCallback, config.callback ev = Except.ok ()) ∧ OpsOk ops
  | _ :: ops => OpsOk ops

/-- The sequence never removes the threshold `id`. -/
def Keeps (id : Symbol) : List Op → Prop
  | [] => True
  | .removeThreshold k :: ops => k ≠ id ∧ Keeps id ops
  | _ :: ops => Keeps id ops

/-- The sequence makes no `setTemperature` call. -/
def NoReading : List Op → Prop
  | [] => True
  | .setTemperature _ :: _ => False
  | _ :: ops => NoReading ops

/-- The facts that hold of every thermometer a program can hold: the keys of the registry are
distinct symbols already made, the default tolerance is the one the constructor sets, and
before the first completed `setTemperature` no directional threshold is latched. -/
structure Inv (t : Thermometer) : Prop where
  nodup : t.thresholds.keys.Nodup
  made : ∀ k ∈ t.thresholds.keys, k < t.symbolCounter
  tolerance : t.defaultTolerance = .fin (1 / 2)
  armed : t.initialized = false → ∀ e ∈ t.thresholds,
    e.2.direction ≠ Direction.BOTH → e.2.lastTriggered = false

/-- The reading store seen by the loop of `checkThresholds` when the value `celsius` arrives
after the value `current`; `initialized` tells whether a call of `setTemperature` completed
before. -/
def storeOf (current celsius : JSNumber) (initialized : Bool) : Thermometer :=
  { currentTemp := celsius
    previousTemp := current
    thresholds := []
    defaultTolerance := .fin (1 / 2)
    initialized := initialized
    symbolCounter := 0 }

/-- What one threshold shows along a sequence of values given to `setTemperature` when no
callback throws, computed from the loop body alone: the events it receives at each value
and its latch afterwards. -/
def soloObserve (threshold : Threshold) (current : JSNumber) (initialized : Bool) :
    List JSNumber → List (List ThresholdCallback × Option Bool)
  | [] => []
  | celsius :: rest =>
    if celsius.isNaN then
      ([], some threshold.lastTriggered) :: soloObserve threshold current initialized rest
    else
      let store := storeOf current celsius initialized
      ((if store.fires threshold then [store.eventFor threshold] else []),
          some (store.afterBody threshold).lastTriggered) ::
        soloObserve (store.afterBody threshold) celsius true rest

/-- The last value that a sequence of calls stored in `currentTemp`: the argument of its last
`setTemperature` call that was not `NaN`. -/
def previousReading (ops : List Op) : Option JSNumber :=
  ((readingsOf ops).filter (fun v => !v.isNaN)).getLast?

/-- Whether the `i`-th value of a list lies in the tolerance band of a threshold. -/
def inBandAt (threshold : Threshold) (readings : List JSNumber) (i : Nat) : Bool :=
  match readings[i]? with
  | some v => Thermometer.isWithinTriggerTempRange v threshold
  | none => false

/-- The threshold that `addThreshold` stores for a configuration. -/
def registered (self : Thermometer) (config : ThresholdConfig) : Threshold :=
  { temp := config.temp
    callback := config.callback
    direction := config.direction.getD Direction.BOTH
    tolerance := config.tolerance.getD self.defaultTolerance
    lastTriggered := false }

/-- The condition under which a threshold is to fire on the value `v`, in the words of the
specification: `v` is in the tolerance band, both ends included; the direction is `BOTH`, or it
is `INCREASING` and a reading was recorded before and `v` is above it, or it is `DECREASING`
and a reading was recorded before and `v` is below it; and the threshold is armed. -/
def fireCondition (self : Thermometer) (v : JSNumber) (threshold : Threshold) : Prop :=
  (v.ge (threshold.temp.sub threshold.tolerance) = true ∧
    v.le (threshold.temp.add threshold.tolerance) = true) ∧
  (threshold.direction = Direction.BOTH ∨
    (threshold.direction = Direction.INCREASING ∧ self.initialized = true ∧
      v.gt self.currentTemp = true) ∨
    (threshold.direction = Direction.DECREASING ∧ self.initialized = true ∧
      v.lt self.currentTemp = true)) ∧
  threshold.lastTriggered = false

/-- The number of times the callback of the threshold `id` is called during the `i`-th
`setTemperature` call of a sequence (counted from 0). -/
def callsAt (id : Symbol) (self : Thermometer) (ops : List Op) (i : Nat) : Nat :=
  match (observe id self ops)[i]? with
  | some o => o.1.length
  | none => 0

/-- The number of times the callback of the threshold `id` is called along a sequence. -/
def totalCalls (id : Symbol) (self : Thermometer) (ops : List Op) : Nat :=
  ((observe id self ops).map (fun o => o.1.length)).sum

/-- Whether some `setTemperature` call of a sequence completed without throwing. -/
def someReadingSucceeded (self : Thermometer) : List Op → Bool
  | [] => false
  | .setTemperature celsius :: ops =>
    (self.setTemperature celsius).error.isNone ||
      someReadingSucceeded (self.setTemperature celsius).self ops
  | op :: ops => someReadingSucceeded (step self op).self ops

/-- A callback that returns normally, like `jest.fn()`. -/
def okCallback : Callback := fun _ => .ok ()

/-- A callback that throws. -/
def throwingCallback : Callback := fun _ => .error "callback failed"

/-- The test "should respect direction constraints" before its first reading: a decreasing
threshold at 0. -/
def decreasingAtZero : Thermometer :=
  exec Thermometer.new
    [.addThreshold { temp := 0, callback := okCallback, direction := some .DECREASING }]

/-- The configuration of the test "should trigger callback when tolerance is zero". -/
def zeroTolerance : ThresholdConfig :=
  { temp := 10, callback := okCallback, tolerance := some 0 }

/-- The threshold that `addThreshold` stores for `{ temp: 0, callback, direction: DECREASING }`. -/
def falling : Threshold :=
  { temp := 0, callback := okCallback, direction := .DECREASING, tolerance := .fin (1 / 2),
    lastTriggered := false }

/-- The thermometer of the tests on several thresholds, before the readings that follow the
registrations: the reading 10, then thresholds at 0 and at 100 with tolerance 1. -/
def freezingAndBoiling : Thermometer :=
  exec Thermometer.new
    [.setTemperature 10,
     .addThreshold { temp := 0, callback := okCallback, tolerance := some 1 },
     .addThreshold { temp := 100, callback := okCallback, tolerance := some 1 }]

/-- The threshold at 0 of `freezingAndBoiling`. -/
def freezingWide : Threshold :=
  { temp := 0, callback := okCallback, direction := .BOTH, tolerance := 1,
    lastTriggered := false }

/-- The readings of the test "should not trigger multiple times within tolerance range" on
several thresholds. -/
def staysInBand : List Op :=
  [.setTemperature 0, .setTemperature (.fin (-1)), .setTemperature 0, .setTemperature 100,
   .setTemperature 101, .setTemperature 100]

/-- The test "should respect direction constraints" after its first three readings: a
decreasing threshold at 0 and the readings -1, 0, 1. -/
def decreasingAfterRise : List Op :=
  [.addThreshold { temp := 0, callback := okCallback, direction := some .DECREASING },
   .setTemperature (.fin (-1)), .setTemperature 0, .setTemperature 1]

/-- The configuration of the threshold at 0 in the tests on several thresholds. -/
def freezingConfig : ThresholdConfig :=
  { temp := 0, callback := okCallback, tolerance := some 1 }

/-- The configuration of the threshold at 100 in the tests on several thresholds. -/
def boilingConfig : ThresholdConfig :=
  { temp := 100, callback := okCallback, tolerance := some 1 }

/-- The readings of the test "should handle multiple thresholds independent of direction"
that follow the registrations. -/
def upAndDown : List Op :=
  [.setTemperature (.fin (-50)), .setTemperature 0, .setTemperature 100, .setTemperature 50,
   .setTemperature 100, .setTemperature 0]

/-- A configuration with a negative tolerance. -/
def negativeTolerance : ThresholdConfig :=
  { temp := 0, callback := okCallback, tolerance := some (.fin (-1)) }

/-- A thermometer with one default threshold at 0 whose callback throws, and no reading yet. -/
def throwingOnly : Thermometer :=
  exec Thermometer.new [.addThreshold { temp := 0, callback := throwingCallback }]

/-- The configuration of a decreasing threshold at 0 with the default tolerance. -/
def decreasingConfig : ThresholdConfig :=
  { temp := 0, callback := okCallback, direction := some .DECREASING }

/-- The readings -1, 0.3 and 0.1 after the registration of a decreasing threshold at 0: the
second one enters the band against the direction, the third one moves down inside it. -/
def fallsInside : List Op :=
  [.setTemperature (.fin (-1)), .setTemperature (.fin (3 / 10)),
   .setTemperature (.fin (1 / 10))]

/-- A thermometer with a threshold at 5 whose callback throws and an increasing threshold at
7, and no reading yet. -/
def throwsThenRises : Thermometer :=
  exec Thermometer.new
    [.addThreshold { temp := 5, callback := throwingCallback },
     .addThreshold { temp := 7, callback := okCallback, direction := some .INCREASING }]

/-! ## Lemmas on numbers -/

theorem JSNumber.lt_asymm {a b : JSNumber} (h : a.lt b = true) : b.lt a = false := by
  cases a <;> cases b <;> simp_all [JSNumber.lt]
  exact le_of_lt h

theorem JSNumber.lt_irrefl (a : JSNumber) : a.lt a = false := by
  cases a <;> simp [JSNumber.lt]

theorem JSNumber.le_nan_right (a : JSNumber) : a.le JSNumber.nan = false := by
  cases a <;> rfl

/-! ## Lemmas on maps -/

namespace ThresholdMap

theorem keys_cons (k : Symbol) (v : Threshold) (m : ThresholdMap) :
    keys ((k, v) :: m) = k :: keys m := rfl

theorem get?_cons_self (id : Symbol) (t : Threshold) (m : ThresholdMap) :
    get? ((id, t) :: m) id = some t := by
  simp [get?]

theorem get?_cons_ne {k id : Symbol} (t : Threshold) (m : ThresholdMap) (h : k ≠ id) :
    get? ((k, t) :: m) id = get? m id := by
  have hb : (k == id) = false := by simpa using h
  simp [get?, List.find?, hb]

theorem get?_eq_none_of_not_mem {m : ThresholdMap} {id : Symbol} (h : id ∉ keys m) :
    get? m id = none := by
  induction m with
  | nil => rfl
  | cons e m ih =>
    obtain ⟨k, v⟩ := e
    simp only [keys_cons, List.mem_cons, not_or] at h
    rw [get?_cons_ne v m (Ne.symm h.1)]
    exact ih h.2

theorem mem_of_get? {m : ThresholdMap} {id : Symbol} {t : Threshold} (h : get? m id = some t) :
    (id, t) ∈ m := by
  induction m with
  | nil => simp [get?] at h
  | cons e m ih =>
    obtain ⟨k, v⟩ := e
    by_cases hk : k = id
    · subst hk
      rw [get?_cons_self] at h
      simp only [Option.some.injEq] at h
      subst h
      exact List.mem_cons_self _ _
    · rw [get?_cons_ne v m hk] at h
      exact List.mem_cons_of_mem _ (ih h)

theorem mem_keys_of_mem {m : ThresholdMap} {id : Symbol} {t : Threshold} (h : (id, t) ∈ m) :
    id ∈ keys m :=
  List.mem_map.mpr ⟨(id, t), h, rfl⟩

theorem mem_keys_of_get? {m : ThresholdMap} {id : Symbol} {t : Threshold}
    (h : get? m id = some t) : id ∈ keys m :=
  mem_keys_of_mem (mem_of_get? h)

theorem get?_of_mem {m : ThresholdMap} {id : Symbol} {t : Threshold} (hn : (keys m).Nodup)
    (h : (id, t) ∈ m) : get? m id = some t := by
  induction m with
  | nil => simp at h
  | cons e m ih =>
    obtain ⟨k, v⟩ := e
    simp only [keys_cons, List.nodup_cons] at hn
    rcases List.mem_cons.mp h with heq | hmem
    · simp only [Prod.mk.injEq] at heq
      obtain ⟨rfl, rfl⟩ := heq
      exact get?_cons_self _ _ _
    · have hne : k ≠ id := by
        rintro rfl
        exact hn.1 (mem_keys_of_mem hmem)
      rw [get?_cons_ne v m hne]
      exact ih hn.2 hmem

theorem has_eq_true_iff (m : ThresholdMap) (id : Symbol) : has m id = true ↔ id ∈ keys m := by
  simp only [has, keys, List.any_eq_true, List.mem_map, beq_iff_eq]

theorem keys_set (id : Symbol) (t : Threshold) (m : ThresholdMap) :
    keys (set id t m) = if id ∈ keys m then keys m else keys m ++ [id] := by
  induction m with
  | nil => simp [set, keys]
  | cons e m ih =>
    obtain ⟨k, v⟩ := e
    by_cases hk : k = id
    · subst hk
      simp [set, keys]
    · have hk2 : ¬ id = k := fun h => hk h.symm
      simp only [set, hk, if_false, keys_cons, ih, List.mem_cons, hk2, false_or]
      split_ifs <;> simp

theorem mem_keys_set (id : Symbol) (t : Threshold) (m : ThresholdMap) (k : Symbol) :
    k ∈ keys (set id t m) ↔ k = id ∨ k ∈ keys m := by
  rw [keys_set]
  split_ifs with h
  · constructor
    · exact Or.inr
    · rintro (rfl | h2)
      · exact h
      · exact h2
  · simp [or_comm]

theorem nodup_keys_set {id : Symbol} (t : Threshold) {m : ThresholdMap} (h : (keys m).Nodup) :
    (keys (set id t m)).Nodup := by
  rw [keys_set]
  split_ifs with hmem
  · exact h
  · exact List.Nodup.append h (List.nodup_singleton _) (by simpa using hmem)

theorem get?_set_self (id : Symbol) (t : Threshold) (m : ThresholdMap) :
    get? (set id t m) id = some t := by
  induction m with
  | nil => simp [set, get?]
  | cons e m ih =>
    obtain ⟨k, v⟩ := e
    by_cases hk : k = id
    · subst hk
      simp [set, get?]
    · simp only [set, hk, if_false]
      rw [get?_cons_ne v _ hk]
      exact ih

theorem get?_set_ne {id k : Symbol} (t : Threshold) (m : ThresholdMap) (h : k ≠ id) :
    get? (set id t m) k = get? m k := by
  induction m with
  | nil =>
    simp only [set]
    rw [get?_cons_ne t [] (Ne.symm h)]
  | cons e m ih =>
    obtain ⟨k1, v⟩ := e
    by_cases hk : k1 = id
    · subst hk
      simp only [set, if_true]
      rw [get?_cons_ne t m (Ne.symm h), get?_cons_ne v m (Ne.symm h)]
    · simp only [set, hk, if_false]
      by_cases hk1 : k1 = k
      · subst hk1
        rw [get?_cons_self, get?_cons_self]
      · rw [get?_cons_ne v _ hk1, get?_cons_ne v _ hk1]
        exact ih

theorem mem_set {id : Symbol} {t : Threshold} {m : ThresholdMap} {e : Symbol × Threshold}
    (h : e ∈ set id t m) : e = (id, t) ∨ e ∈ m := by
  induction m with
  | nil =>
    simp only [set, List.mem_singleton] at h
    exact Or.inl h
  | cons e1 m ih =>
    obtain ⟨k, v⟩ := e1
    by_cases hk : k = id
    · simp only [set, hk, if_true, List.mem_cons] at h
      rcases h with h | h
      · exact Or.inl h
      · exact Or.inr (List.mem_cons_of_mem _ h)
    · simp only [set, hk, if_false, List.mem_cons] at h
      rcases h with h | h
      · exact Or.inr (h ▸ List.mem_cons_self _ _)
      · rcases ih h with h2 | h2
        · exact Or.inl h2
        · exact Or.inr (List.mem_cons_of_mem _ h2)

theorem keys_delete (m : ThresholdMap) (id : Symbol) :
    keys (delete m id).1 = (keys m).filter (fun k => k != id) := by
  induction m with
  | nil => rfl
  | cons e m ih =>
    obtain ⟨k, v⟩ := e
    simp only [delete, keys] at ih ⊢
    by_cases hk : k = id
    · simp [List.filter, hk, ih]
    · have hb : (k != id) = true := by simpa using hk
      simp [List.filter, hb, ih]

theorem get?_delete_ne {id k : Symbol} (m : ThresholdMap) (h : k ≠ id) :
    get? (delete m id).1 k = get? m k := by
  induction m with
  | nil => rfl
  | cons e m ih =>
    obtain ⟨k1, v⟩ := e
    simp only [delete] at ih ⊢
    by_cases hk : k1 = id
    · subst hk
      simp only [List.filter, bne_self_eq_false]
      rw [ih, get?_cons_ne v m (Ne.symm h)]
    · have : (k1 != id) = true := by simpa using hk
      simp only [List.filter, this]
      by_cases hk1 : k1 = k
      · subst hk1
        rw [get?_cons_self, get?_cons_self]
      · rw [get?_cons_ne v _ hk1, get?_cons_ne v _ hk1]
        exact ih

theorem mem_delete {m : ThresholdMap} {id : Symbol} {e : Symbol × Threshold}
    (h : e ∈ (delete m id).1) : e ∈ m ∧ e.1 ≠ id := by
  simp only [delete, List.mem_filter, bne_iff_ne, ne_eq] at h
  exact h

end ThresholdMap

/-! ## Lemmas on the loop of `checkThresholds` -/

namespace Thermometer

theorem checkBody_next {self : Thermometer} {th th1 : Threshold}
    {call : Option ThresholdCallback} (h : checkBody self th = .next th1 call) :
    th1 = self.afterBody th ∧
      call = if self.fires th then some (self.eventFor th) else none := by
  unfold checkBody at h
  unfold afterBody fires
  split_ifs at h with h1 h2 h3
  · simp only [BodyResult.next.injEq] at h
    simp [h1, ← h.1, ← h.2]
  · split at h
    · exact absurd h (by simp)
    · simp only [BodyResult.next.injEq] at h
      simp [h1, h2, ← h.1, ← h.2]
  · simp only [BodyResult.next.injEq] at h
    simp [h1, h2, h3, ← h.1, ← h.2]
  · simp only [BodyResult.next.injEq] at h
    simp [h1, h2, h3, ← h.1, ← h.2]

theorem checkBody_thrown {self : Thermometer} {th : Threshold} {msg : String}
    {call : ThresholdCallback} (h : checkBody self th = .thrown msg call) :
    self.fires th = true ∧ call = self.eventFor th ∧
      th.callback (self.eventFor th) = .error msg := by
  unfold checkBody at h
  unfold fires
  split_ifs at h with h1 h2 h3
  split at h
  · rename_i m hm
    simp only [BodyResult.thrown.injEq] at h
    refine ⟨?_, h.2.symm, ?_⟩
    · simp [h1, h2]
    · rw [hm, h.1]
  · exact absurd h (by simp)

theorem checkBody_of_ok {self : Thermometer} {th : Threshold}
    (h : self.fires th = true → th.callback (self.eventFor th) = .ok ()) :
    checkBody self th = .next (self.afterBody th)
      (if self.fires th then some (self.eventFor th) else none) := by
  cases hb : checkBody self th with
  | next th1 call =>
    obtain ⟨h1, h2⟩ := checkBody_next hb
    rw [h1, h2]
  | thrown msg call =>
    obtain ⟨h1, _, h3⟩ := checkBody_thrown hb
    rw [h h1] at h3
    exact absurd h3 (by simp)

theorem afterBody_callback (self : Thermometer) (th : Threshold) :
    (self.afterBody th).callback = th.callback := by
  unfold afterBody
  split_ifs <;> rfl

theorem afterBody_direction (self : Thermometer) (th : Threshold) :
    (self.afterBody th).direction = th.direction := by
  unfold afterBody
  split_ifs <;> rfl

theorem afterBody_temp (self : Thermometer) (th : Threshold) :
    (self.afterBody th).temp = th.temp := by
  unfold afterBody
  split_ifs <;> rfl

theorem afterBody_tolerance (self : Thermometer) (th : Threshold) :
    (self.afterBody th).tolerance = th.tolerance := by
  unfold afterBody
  split_ifs <;> rfl

theorem afterBody_eq (self : Thermometer) (th : Threshold) :
    self.afterBody th = { th with lastTriggered := (self.afterBody th).lastTriggered } := by
  unfold afterBody
  split_ifs <;> rfl

theorem isWithin_afterBody (self : Thermometer) (v : JSNumber) (th : Threshold) :
    isWithinTriggerTempRange v (self.afterBody th) = isWithinTriggerTempRange v th := by
  simp only [isWithinTriggerTempRange, afterBody_temp, afterBody_tolerance]

theorem afterBody_of_fires {self : Thermometer} {th : Threshold} (h : self.fires th = true) :
    (self.afterBody th).lastTriggered = true := by
  unfold fires at h
  unfold afterBody
  simp only [Bool.and_eq_true, Bool.not_eq_true', Bool.not_eq_eq_eq_not, Bool.not_true] at h
  split_ifs with h1 h2 h3
  · simp [h1] at h
  · rfl
  · exfalso
    simp only [Bool.and_eq_true, Bool.not_eq_true', not_and, Bool.not_eq_false] at h2
    have := h2 ⟨h.2.1.1, h.2.1.2⟩
    rw [h.2.2] at this
    exact absurd this (by simp)
  · exfalso
    simp only [Bool.and_eq_true, Bool.not_eq_true', not_and, Bool.not_eq_false] at h2
    have := h2 ⟨h.2.1.1, h.2.1.2⟩
    rw [h.2.2] at this
    exact absurd this (by simp)

theorem afterBody_of_skip {self : Thermometer} {th : Threshold}
    (hs : (!self.initialized && th.direction != Direction.BOTH) = true) :
    self.afterBody th = th := by
  unfold afterBody
  simp [hs]

theorem fires_of_skip {self : Thermometer} {th : Threshold}
    (hs : (!self.initialized && th.direction != Direction.BOTH) = true) :
    self.fires th = false := by
  unfold fires
  simp [hs]

theorem afterBody_of_within_not_fires {self : Thermometer} {th : Threshold}
    (h : isWithinTriggerTempRange self.currentTemp th = true) (hf : self.fires th = false) :
    self.afterBody th = th := by
  unfold fires at hf
  unfold afterBody
  split_ifs with h1 h2 h3
  · rfl
  · exfalso
    simp only [Bool.not_eq_true] at h1
    simp [h1, h2] at hf
  · simp [h] at h3
  · rfl

theorem checkLoop_keys (self : Thermometer) (m : ThresholdMap) :
    ThresholdMap.keys (checkLoop self m).entries = ThresholdMap.keys m := by
  induction m with
  | nil => rfl
  | cons e m ih =>
    obtain ⟨k, th⟩ := e
    cases hb : checkBody self th with
    | next th1 call => simp only [checkLoop, hb, ThresholdMap.keys_cons, ih]
    | thrown msg call => simp only [checkLoop, hb, ThresholdMap.keys_cons]

theorem checkLoop_calls_mem {self : Thermometer} {m : ThresholdMap} {c : Call}
    (h : c ∈ (checkLoop self m).calls) :
    ∃ th, (c.1, th) ∈ m ∧ self.fires th = true ∧ c.2 = self.eventFor th := by
  induction m with
  | nil => simp [checkLoop] at h
  | cons e m ih =>
    obtain ⟨k, th⟩ := e
    cases hb : checkBody self th with
    | next th1 call =>
      obtain ⟨_, h2⟩ := checkBody_next hb
      simp only [checkLoop, hb, List.mem_append] at h
      rcases h with h | h
      · by_cases hf : self.fires th = true
        · simp only [h2, hf, if_true, Option.map_some', Option.toList_some,
            List.mem_singleton] at h
          subst h
          exact ⟨th, List.mem_cons_self _ _, hf, rfl⟩
        · simp [h2, hf] at h
      · obtain ⟨t, ht, hf, he⟩ := ih h
        exact ⟨t, List.mem_cons_of_mem _ ht, hf, he⟩
    | thrown msg call =>
      obtain ⟨h1, h2, _⟩ := checkBody_thrown hb
      simp only [checkLoop, hb, List.mem_singleton] at h
      subst h
      exact ⟨th, List.mem_cons_self _ _, h1, h2⟩

theorem checkLoop_entries_mem {self : Thermometer} {m : ThresholdMap} {e : Symbol × Threshold}
    (h : e ∈ (checkLoop self m).entries) :
    ∃ th, (e.1, th) ∈ m ∧ (e.2 = th ∨ e.2 = self.afterBody th) := by
  induction m with
  | nil => simp [checkLoop] at h
  | cons e1 m ih =>
    obtain ⟨k, th⟩ := e1
    cases hb : checkBody self th with
    | next th1 call =>
      obtain ⟨h1, _⟩ := checkBody_next hb
      simp only [checkLoop, hb, List.mem_cons] at h
      rcases h with h | h
      · subst h
        exact ⟨th, List.mem_cons_self _ _, Or.inr h1⟩
      · obtain ⟨t, ht, he⟩ := ih h
        exact ⟨t, List.mem_cons_of_mem _ ht, he⟩
    | thrown msg call =>
      simp only [checkLoop, hb] at h
      exact ⟨e.2, h, Or.inl rfl⟩

theorem checkLoop_mem_entries {self : Thermometer} {m : ThresholdMap} {e : Symbol × Threshold}
    (h : e ∈ m) :
    e ∈ (checkLoop self m).entries ∨ (e.1, self.afterBody e.2) ∈ (checkLoop self m).entries := by
  induction m with
  | nil => simp at h
  | cons e1 m ih =>
    obtain ⟨k, th⟩ := e1
    cases hb : checkBody self th with
    | next th1 call =>
      obtain ⟨h1, _⟩ := checkBody_next hb
      simp only [checkLoop, hb, List.mem_cons]
      rcases List.mem_cons.mp h with h | h
      · subst h
        exact Or.inr (Or.inl (by rw [h1]))
      · rcases ih h with h2 | h2
        · exact Or.inl (Or.inr h2)
        · exact Or.inr (Or.inr h2)
    | thrown msg call =>
      simp only [checkLoop, hb]
      exact Or.inl h

/-- The loop when it ends without an error: every entry went through the body. -/
theorem checkLoop_of_error_none {self : Thermometer} {m : ThresholdMap}
    (h : (checkLoop self m).error = none) :
    (checkLoop self m).entries = m.map (fun e => (e.1, self.afterBody e.2)) ∧
    (checkLoop self m).calls =
      m.filterMap (fun e => if self.fires e.2 then some (e.1, self.eventFor e.2) else none) := by
  induction m with
  | nil => simp [checkLoop]
  | cons e m ih =>
    obtain ⟨k, th⟩ := e
    cases hb : checkBody self th with
    | next th1 call =>
      obtain ⟨h1, h2⟩ := checkBody_next hb
      simp only [checkLoop, hb] at h ⊢
      obtain ⟨ih1, ih2⟩ := ih h
      refine ⟨by simp [ih1, h1], ?_⟩
      by_cases hf : self.fires th = true
      · simp [List.filterMap_cons, hf, h2, ih2]
      · simp [List.filterMap_cons, hf, h2, ih2]
    | thrown msg call =>
      simp [checkLoop, hb] at h

theorem checkLoop_error_none_of_ok {self : Thermometer} {m : ThresholdMap}
    (h : ∀ e ∈ m, self.fires e.2 = true → e.2.callback (self.eventFor e.2) = .ok ()) :
    (checkLoop self m).error = none := by
  induction m with
  | nil => rfl
  | cons e m ih =>
    obtain ⟨k, th⟩ := e
    have hb := checkBody_of_ok (h (k, th) (List.mem_cons_self _ _))
    simp only [checkLoop, hb]
    exact ih (fun e he => h e (List.mem_cons_of_mem _ he))

/-- The loop over a map whose first part raises no error goes on with the rest. -/
theorem checkLoop_append {self : Thermometer} {pre : ThresholdMap} (rest : ThresholdMap)
    (h : (checkLoop self pre).error = none) :
    checkLoop self (pre ++ rest) =
      ⟨(checkLoop self pre).entries ++ (checkLoop self rest).entries,
        (checkLoop self pre).calls ++ (checkLoop self rest).calls,
        (checkLoop self rest).error⟩ := by
  induction pre with
  | nil => simp [checkLoop]
  | cons e m ih =>
    obtain ⟨k, th⟩ := e
    cases hb : checkBody self th with
    | next th1 call =>
      simp only [checkLoop, hb] at h
      have ih2 : self.checkLoop (m.append rest) = _ := ih h
      simp only [List.cons_append, checkLoop, hb]
      rw [ih2]
      simp only [List.cons_append, List.append_assoc]
    | thrown msg call =>
      simp [checkLoop, hb] at h

theorem eventsOf_nil_of_not_mem {id : Symbol} {calls : List Call}
    (h : ∀ c ∈ calls, c.1 ≠ id) : eventsOf id calls = [] := by
  simp only [eventsOf, List.map_eq_nil_iff, List.filter_eq_nil_iff, beq_iff_eq]
  exact h

theorem eventsOf_checkLoop_of_not_mem {self : Thermometer} {m : ThresholdMap} {id : Symbol}
    (h : id ∉ ThresholdMap.keys m) : eventsOf id (checkLoop self m).calls = [] := by
  apply eventsOf_nil_of_not_mem
  intro c hc hid
  obtain ⟨th, hmem, _, _⟩ := checkLoop_calls_mem hc
  exact h (hid ▸ ThresholdMap.mem_keys_of_mem hmem)

theorem eventsOf_append (id : Symbol) (a b : List Call) :
    eventsOf id (a ++ b) = eventsOf id a ++ eventsOf id b := by
  simp [eventsOf]

/-! ## Lemmas on `setTemperature` -/

theorem setTemperature_of_nan {self : Thermometer} {v : JSNumber} (h : v.isNaN = true) :
    self.setTemperature v = ⟨self, [], some "Temperature must be a number"⟩ := by
  simp [setTemperature, h]

theorem setTemperature_calls {self : Thermometer} {v : JSNumber} (h : v.isNaN = false) :
    (self.setTemperature v).calls = (checkLoop (self.record v) self.thresholds).calls := by
  simp only [setTemperature, h, checkThresholds, record, Bool.false_eq_true, if_false]
  split <;> rfl

theorem setTemperature_error {self : Thermometer} {v : JSNumber} (h : v.isNaN = false) :
    (self.setTemperature v).error = (checkLoop (self.record v) self.thresholds).error := by
  simp only [setTemperature, h, checkThresholds, record, Bool.false_eq_true, if_false]
  split
  · rename_i msg hm
    exact hm.symm
  · rename_i hm
    exact hm.symm

theorem setTemperature_thresholds {self : Thermometer} {v : JSNumber} (h : v.isNaN = false) :
    (self.setTemperature v).self.thresholds =
      (checkLoop (self.record v) self.thresholds).entries := by
  simp only [setTemperature, h, checkThresholds, record, Bool.false_eq_true, if_false]
  split <;> rfl

theorem setTemperature_currentTemp {self : Thermometer} {v : JSNumber} (h : v.isNaN = false) :
    (self.setTemperature v).self.currentTemp = v := by
  simp only [setTemperature, h, checkThresholds, Bool.false_eq_true, if_false]
  split <;> rfl

theorem setTemperature_previousTemp {self : Thermometer} {v : JSNumber} (h : v.isNaN = false) :
    (self.setTemperature v).self.previousTemp = self.currentTemp := by
  simp only [setTemperature, h, checkThresholds, Bool.false_eq_true, if_false]
  split <;> rfl

theorem setTemperature_initialized {self : Thermometer} {v : JSNumber} (h : v.isNaN = false) :
    (self.setTemperature v).self.initialized =
      if (self.setTemperature v).error = none then true else self.initialized := by
  simp only [setTemperature, h, checkThresholds, Bool.false_eq_true, if_false]
  split <;> simp

theorem setTemperature_symbolCounter (self : Thermometer) (v : JSNumber) :
    (self.setTemperature v).self.symbolCounter = self.symbolCounter := by
  simp only [setTemperature, checkThresholds]
  split
  · rfl
  · split <;> rfl

theorem setTemperature_defaultTolerance (self : Thermometer) (v : JSNumber) :
    (self.setTemperature v).self.defaultTolerance = self.defaultTolerance := by
  simp only [setTemperature, checkThresholds]
  split
  · rfl
  · split <;> rfl

theorem setTemperature_keys (self : Thermometer) (v : JSNumber) :
    (self.setTemperature v).self.thresholds.keys = self.thresholds.keys := by
  cases h : v.isNaN
  · rw [setTemperature_thresholds h, checkLoop_keys]
  · rw [setTemperature_of_nan h]

theorem error_of_nan {self : Thermometer} {v : JSNumber} (h : v.isNaN = true) :
    (self.setTemperature v).error ≠ none := by
  rw [setTemperature_of_nan h]
  simp

theorem not_nan_of_error_none {self : Thermometer} {v : JSNumber}
    (h : (self.setTemperature v).error = none) : v.isNaN = false := by
  cases hv : v.isNaN
  · rfl
  · exact absurd h (error_of_nan hv)

theorem record_currentTemp (self : Thermometer) (v : JSNumber) :
    (self.record v).currentTemp = v := rfl

theorem record_previousTemp (self : Thermometer) (v : JSNumber) :
    (self.record v).previousTemp = self.currentTemp := rfl

theorem record_initialized (self : Thermometer) (v : JSNumber) :
    (self.record v).initialized = self.initialized := rfl

end Thermometer

/-! ## The invariant -/

theorem inv_new : Inv Thermometer.new :=
  ⟨List.nodup_nil, by simp [Thermometer.new, ThresholdMap.keys], rfl,
    by simp [Thermometer.new]⟩

theorem inv_setTemperature {self : Thermometer} (h : Inv self) (v : JSNumber) :
    Inv (self.setTemperature v).self := by
  cases hv : v.isNaN
  · refine ⟨?_, ?_, ?_, ?_⟩
    · rw [Thermometer.setTemperature_keys]
      exact h.nodup
    · rw [Thermometer.setTemperature_keys, Thermometer.setTemperature_symbolCounter]
      exact h.made
    · rw [Thermometer.setTemperature_defaultTolerance]
      exact h.tolerance
    · intro hi e he hd
      rw [Thermometer.setTemperature_initialized hv] at hi
      have hinit : self.initialized = false := by
        split_ifs at hi
        exact hi
      rw [Thermometer.setTemperature_thresholds hv] at he
      obtain ⟨th, hmem, hor⟩ := Thermometer.checkLoop_entries_mem he
      have hskip : (!(self.record v).initialized && th.direction != Direction.BOTH) = true → 
          e.2 = th := by
        intro hs
        rcases hor with hor | hor
        · exact hor
        · rw [hor, Thermometer.afterBody_of_skip hs]
      have hdir : th.direction = e.2.direction := by
        rcases hor with hor | hor
        · rw [hor]
        · rw [hor, Thermometer.afterBody_direction]
      have hd2 : th.direction ≠ Direction.BOTH := hdir ▸ hd
      rw [hskip (by simp [Thermometer.record_initialized, hinit, hd2])]
      exact h.armed hinit (e.1, th) hmem hd2
  · rw [Thermometer.setTemperature_of_nan hv]
    exact h

theorem inv_addThreshold {self : Thermometer} (h : Inv self) (config : ThresholdConfig) :
    Inv (self.addThreshold config).1 := by
  refine ⟨?_, ?_, h.tolerance, ?_⟩
  · exact ThresholdMap.nodup_keys_set _ h.nodup
  · intro k hk
    simp only [Thermometer.addThreshold] at hk ⊢
    rcases (ThresholdMap.mem_keys_set _ _ _ _).mp hk with rfl | hk
    · exact Nat.lt_succ_self _
    · exact Nat.lt_succ_of_lt (h.made k hk)
  · intro hi e he hd
    simp only [Thermometer.addThreshold] at hi he
    rcases ThresholdMap.mem_set he with rfl | he
    · rfl
    · exact h.armed hi e he hd

theorem inv_removeThreshold {self : Thermometer} (h : Inv self) (id : Symbol) :
    Inv (self.removeThreshold id).1 := by
  refine ⟨?_, ?_, h.tolerance, ?_⟩
  · simp only [Thermometer.removeThreshold, ThresholdMap.keys_delete]
    exact h.nodup.filter _
  · intro k hk
    simp only [Thermometer.removeThreshold, ThresholdMap.keys_delete, List.mem_filter] at hk ⊢
    exact h.made k hk.1
  · intro hi e he hd
    simp only [Thermometer.removeThreshold] at hi he
    exact h.armed hi e (ThresholdMap.mem_delete he).1 hd

theorem inv_step {self : Thermometer} (h : Inv self) (op : Op) : Inv (step self op).self := by
  cases op with
  | setTemperature v => exact inv_setTemperature h v
  | addThreshold config => exact inv_addThreshold h config
  | removeThreshold id => exact inv_removeThreshold h id

theorem inv_exec {self : Thermometer} (h : Inv self) (ops : List Op) : Inv (exec self ops) := by
  induction ops generalizing self with
  | nil => exact h
  | cons op ops ih => exact ih (inv_step h op)

theorem inv_of_reachable {self : Thermometer} (h : Reachable self) : Inv self := by
  obtain ⟨ops, rfl⟩ := h
  exact inv_exec inv_new ops

theorem eventsOf_cons_self (id : Symbol) (e : ThresholdCallback) (calls : List Call) :
    eventsOf id ((id, e) :: calls) = e :: eventsOf id calls := by
  simp [eventsOf]

theorem eventsOf_cons_ne {id k : Symbol} (e : ThresholdCallback) (calls : List Call)
    (h : k ≠ id) : eventsOf id ((k, e) :: calls) = eventsOf id calls := by
  have hb : (k == id) = false := by simpa using h
  simp [eventsOf, List.filter, hb]

theorem mem_of_mem_eventsOf {id : Symbol} {e : ThresholdCallback} {calls : List Call}
    (h : e ∈ eventsOf id calls) : (id, e) ∈ calls := by
  simp only [eventsOf, List.mem_map, List.mem_filter, beq_iff_eq] at h
  obtain ⟨c, ⟨hc, hid⟩, he⟩ := h
  have : c = (id, e) := by
    obtain ⟨k, e1⟩ := c
    simp only at hid he
    rw [hid, he]
  exact this ▸ hc

theorem mem_eventsOf_of_mem {id : Symbol} {e : ThresholdCallback} {calls : List Call}
    (h : (id, e) ∈ calls) : e ∈ eventsOf id calls := by
  simp only [eventsOf, List.mem_map, List.mem_filter, beq_iff_eq]
  exact ⟨(id, e), ⟨h, rfl⟩, rfl⟩

/-- The events that the entry `(id, th)` of a map receives in a pass of the loop that reaches
it: one event if the body fires, none otherwise. -/
theorem eventsOf_checkLoop_at {self : Thermometer} {pre post : ThresholdMap} {id : Symbol}
    {th : Threshold} (hn : (ThresholdMap.keys (pre ++ (id, th) :: post)).Nodup)
    (hpre : (Thermometer.checkLoop self pre).error = none) :
    eventsOf id (Thermometer.checkLoop self (pre ++ (id, th) :: post)).calls =
      if self.fires th then [self.eventFor th] else [] := by
  have hk : ThresholdMap.keys (pre ++ (id, th) :: post) =
      ThresholdMap.keys pre ++ id :: ThresholdMap.keys post := by
    simp [ThresholdMap.keys]
  rw [hk] at hn
  have hpre_not : id ∉ ThresholdMap.keys pre := by
    intro hmem
    exact (List.nodup_append.mp hn).2.2 hmem (List.mem_cons_self _ _)
  have hpost_not : id ∉ ThresholdMap.keys post :=
    (List.nodup_cons.mp (List.nodup_append.mp hn).2.1).1
  rw [Thermometer.checkLoop_append _ hpre]
  simp only [Thermometer.eventsOf_append,
    Thermometer.eventsOf_checkLoop_of_not_mem hpre_not, List.nil_append]
  cases hb : Thermometer.checkBody self th with
  | next th1 call =>
    obtain ⟨_, h2⟩ := Thermometer.checkBody_next hb
    simp only [Thermometer.checkLoop, hb, Thermometer.eventsOf_append,
      Thermometer.eventsOf_checkLoop_of_not_mem hpost_not, List.append_nil, h2]
    by_cases hf : self.fires th = true
    · simp [hf, eventsOf]
    · simp [hf, eventsOf]
  | thrown msg call =>
    obtain ⟨h1, h2, _⟩ := Thermometer.checkBody_thrown hb
    simp [Thermometer.checkLoop, hb, h1, h2, eventsOf]

theorem fires_record_iff (self : Thermometer) (v : JSNumber) (th : Threshold) :
    (self.record v).fires th = true ↔ fireCondition self v th := by
  unfold fireCondition Thermometer.fires Thermometer.isMatchingDirection
    Thermometer.isIncreasing Thermometer.isDecreasing Thermometer.isWithinTriggerTempRange
  simp only [Thermometer.record_currentTemp, Thermometer.record_previousTemp,
    Thermometer.record_initialized]
  cases hd : th.direction <;> cases hi : self.initialized <;> cases hl : th.lastTriggered <;>
    simp

theorem exists_split_of_get? {m : ThresholdMap} {id : Symbol} {th : Threshold}
    (h : m.get? id = some th) : ∃ pre post, m = pre ++ (id, th) :: post := by
  obtain ⟨pre, post, h2⟩ := List.append_of_mem (ThresholdMap.mem_of_get? h)
  exact ⟨pre, post, h2⟩

/-! ## The fire decision (C3) -/

/-- Claim C5: as long as no call of `setTemperature` has completed, and so at the first call
ever made, `setTemperature(v)` does not call the callback of a threshold whose direction is
`INCREASING` or `DECREASING` and leaves the threshold as it is, its latch included, whatever
`v` is. -/
theorem directional_skipped_before_first_reading (self : Thermometer) (hR : Reachable self)
    (hfirst : self.initialized = false) (v : JSNumber) (id : Symbol) (th : Threshold)
    (hth : self.thresholds.get? id = some th)
    (hdir : th.direction = Direction.INCREASING ∨ th.direction = Direction.DECREASING) :
    eventsOf id (self.setTemperature v).calls = [] ∧
    (self.setTemperature v).self.thresholds.get? id = some th := by
  cases hv : v.isNaN
  · have hskip : (!(self.record v).initialized && th.direction != Direction.BOTH) = true := by
      rcases hdir with hd | hd <;> simp [Thermometer.record_initialized, hfirst, hd]
    have hmem := ThresholdMap.mem_of_get? hth
    constructor
    · apply Thermometer.eventsOf_nil_of_not_mem
      intro c hc hid
      rw [Thermometer.setTemperature_calls hv] at hc
      obtain ⟨th1, hmem1, hf, _⟩ := Thermometer.checkLoop_calls_mem hc
      rw [hid] at hmem1
      have h1 := ThresholdMap.get?_of_mem (inv_of_reachable hR).nodup hmem1
      rw [hth] at h1
      simp only [Option.some.injEq] at h1
      subst h1
      rw [Thermometer.fires_of_skip hskip] at hf
      exact absurd hf (by simp)
    · have hn : (ThresholdMap.keys (self.setTemperature v).self.thresholds).Nodup := by
        rw [Thermometer.setTemperature_keys]
        exact (inv_of_reachable hR).nodup
      apply ThresholdMap.get?_of_mem hn
      rw [Thermometer.setTemperature_thresholds hv]
      rcases @Thermometer.checkLoop_mem_entries (self.record v) _ _ hmem with h | h
      · exact h
      · simp only [Thermometer.afterBody_of_skip hskip] at h
        exact h
  · rw [Thermometer.setTemperature_of_nan hv]
    exact ⟨rfl, hth⟩

/-- An instance: the decreasing threshold at 0 of the test "should respect direction
constraints" and a first reading 0, inside its band. -/
theorem directional_skipped_before_first_reading_witness :
    eventsOf 0 (decreasingAtZero.setTemperature 0).calls = [] ∧
    (decreasingAtZero.setTemperature 0).self.thresholds.get? 0 = some falling :=
  directional_skipped_before_first_reading decreasingAtZero ⟨_, rfl⟩ rfl 0 0 falling rfl
    (Or.inr rfl)

/-! ## A `BOTH` threshold on a new thermometer (C6) -/

theorem not_nan_of_within {v : JSNumber} {th : Threshold}
    (h : Thermometer.isWithinTriggerTempRange v th = true) : v.isNaN = false := by
  cases v with
  | nan =>
    simp only [Thermometer.isWithinTriggerTempRange, JSNumber.ge, JSNumber.le_nan_right,
      Bool.false_and] at h
    exact absurd h (by simp)
  | negInf => rfl
  | fin q => rfl
  | posInf => rfl

theorem step_keeps_head {self : Thermometer} {id : Symbol} {th : Threshold} {rest : ThresholdMap}
    (hm : self.thresholds = (id, th) :: rest) (hid : id < self.symbolCounter) {op : Op}
    (hno : NoReading [op]) (hkeep : Keeps id [op]) :
    (∃ rest1, (step self op).self.thresholds = (id, th) :: rest1) ∧
    (step self op).self.initialized = self.initialized ∧
    id < (step self op).self.symbolCounter := by
  cases op with
  | setTemperature v => exact absurd hno (by simp [NoReading])
  | addThreshold config =>
    have hne : ¬ id = self.symbolCounter := Nat.ne_of_lt hid
    refine ⟨⟨ThresholdMap.set self.symbolCounter (registered self config) rest, ?_⟩, rfl, ?_⟩
    · simp only [step, Thermometer.addThreshold, hm, ThresholdMap.set, hne, if_false]
      rfl
    · exact Nat.lt_succ_of_lt hid
  | removeThreshold k =>
    have hk : k ≠ id := hkeep.1
    have hb : (id != k) = true := by simpa using (Ne.symm hk)
    refine ⟨⟨rest.filter (fun e => e.1 != k), ?_⟩, rfl, hid⟩
    simp [step, Thermometer.removeThreshold, ThresholdMap.delete, hm, List.filter, hb]

theorem noReading_cons {op : Op} {ops : List Op} (h : NoReading (op :: ops)) :
    NoReading [op] ∧ NoReading ops := by
  cases op <;> simp_all [NoReading]

theorem keeps_cons {id : Symbol} {op : Op} {ops : List Op} (h : Keeps id (op :: ops)) :
    Keeps id [op] ∧ Keeps id ops := by
  cases op <;> simp_all [Keeps]

theorem exec_keeps_head {self : Thermometer} {id : Symbol} {th : Threshold}
    {rest : ThresholdMap} (hm : self.thresholds = (id, th) :: rest)
    (hid : id < self.symbolCounter) {ops : List Op} (hno : NoReading ops)
    (hkeep : Keeps id ops) :
    (∃ rest1, (exec self ops).thresholds = (id, th) :: rest1) ∧
    (exec self ops).initialized = self.initialized := by
  induction ops generalizing self rest with
  | nil => exact ⟨⟨rest, hm⟩, rfl⟩
  | cons op ops ih =>
    obtain ⟨⟨rest1, h1⟩, h2, h3⟩ :=
      step_keeps_head hm hid (noReading_cons hno).1 (keeps_cons hkeep).1
    obtain ⟨h4, h5⟩ := ih h1 h3 (noReading_cons hno).2 (keeps_cons hkeep).2
    exact ⟨h4, h5.trans h2⟩

/-- Claim C6: a threshold with direction `BOTH` (given or by default) is registered on a new
thermometer; whatever is registered or removed afterwards, if the first reading `v` lies in
its tolerance band then `setTemperature(v)` calls its callback exactly once, with
`{temperature: v, threshold: temp, direction: 'both'}`.  The initial `previousTemp` 0 plays
no part: the direction is `BOTH` for every such `v`. -/
theorem both_fires_on_first_reading (config : ThresholdConfig)
    (hdir : config.direction = none ∨ config.direction = some Direction.BOTH)
    (ops : List Op) (hno : NoReading ops)
    (hkeep : Keeps (Thermometer.new.addThreshold config).2 ops) (v : JSNumber)
    (hband : Thermometer.isWithinTriggerTempRange v (registered Thermometer.new config) = true) :
    eventsOf (Thermometer.new.addThreshold config).2
        ((exec (Thermometer.new.addThreshold config).1 ops).setTemperature v).calls =
      [⟨v, config.temp, Direction.BOTH⟩] := by
  have hv := not_nan_of_within hband
  have hm : (Thermometer.new.addThreshold config).1.thresholds =
      (0, registered Thermometer.new config) :: [] := rfl
  have hid : (0 : Symbol) < (Thermometer.new.addThreshold config).1.symbolCounter := by
    simp [Thermometer.addThreshold, Thermometer.new]
  have hkeep2 : Keeps 0 ops := hkeep
  obtain ⟨⟨rest1, h1⟩, h2⟩ := exec_keeps_head hm hid hno hkeep2
  have hinv : Inv (exec (Thermometer.new.addThreshold config).1 ops) :=
    inv_exec (inv_addThreshold inv_new config) ops
  have hn := hinv.nodup
  rw [h1] at hn
  have hinit : (exec (Thermometer.new.addThreshold config).1 ops).initialized = false := h2
  have hd : (registered Thermometer.new config).direction = Direction.BOTH := by
    rcases hdir with hd | hd <;> simp [registered, hd]
  have hcalls := @eventsOf_checkLoop_at
    ((exec (Thermometer.new.addThreshold config).1 ops).record v) [] rest1 _ _ hn rfl
  rw [Thermometer.setTemperature_calls hv, h1]
  show eventsOf 0 _ = _
  simp only [List.nil_append] at hcalls
  rw [hcalls]
  have hf : ((exec (Thermometer.new.addThreshold config).1 ops).record v).fires
      (registered Thermometer.new config) = true := by
    simp only [Thermometer.fires, Thermometer.record_currentTemp, hband, hd,
      Thermometer.isMatchingDirection]
    simp [registered]
  simp only [hf, if_true, Thermometer.eventFor, Thermometer.resolvedDirection,
    Thermometer.isIncreasing, Thermometer.isDecreasing, Thermometer.record_initialized, hinit,
    Thermometer.record_currentTemp]
  simp [registered]

/-- An instance, the test "should trigger callback when tolerance is zero": a threshold at
10 with tolerance 0 and the first reading 10. -/
theorem both_fires_on_first_reading_witness :
    eventsOf (Thermometer.new.addThreshold zeroTolerance).2
        ((exec (Thermometer.new.addThreshold zeroTolerance).1 []).setTemperature 10).calls =
      [⟨10, zeroTolerance.temp, Direction.BOTH⟩] :=
  both_fires_on_first_reading zeroTolerance (Or.inl rfl) [] trivial trivial 10 (by decide!)

/-! ## The latch after a call that completes (C8) -/

theorem get?_map_snd (f : Threshold → Threshold) (m : ThresholdMap) (id : Symbol) :
    ThresholdMap.get? (m.map (fun e => (e.1, f e.2))) id = (ThresholdMap.get? m id).map f := by
  induction m with
  | nil => rfl
  | cons e m ih =>
    obtain ⟨k, th⟩ := e
    by_cases hk : k = id
    · subst hk
      simp only [List.map_cons]
      rw [ThresholdMap.get?_cons_self, ThresholdMap.get?_cons_self]
      rfl
    · simp only [List.map_cons]
      rw [ThresholdMap.get?_cons_ne _ _ hk, ThresholdMap.get?_cons_ne _ _ hk]
      exact ih

theorem eventsOf_filterMap_of_not_mem (p : Threshold → Bool) (g : Threshold → ThresholdCallback)
    {m : ThresholdMap} {id : Symbol} (h : id ∉ ThresholdMap.keys m) :
    eventsOf id (m.filterMap (fun e => if p e.2 then some (e.1, g e.2) else none)) = [] := by
  apply Thermometer.eventsOf_nil_of_not_mem
  intro c hc hid
  simp only [List.mem_filterMap] at hc
  obtain ⟨e, he, hce⟩ := hc
  split_ifs at hce
  simp only [Option.some.injEq] at hce
  apply h
  rw [← hid, ← hce]
  exact List.mem_map.mpr ⟨e, he, rfl⟩

theorem eventsOf_filterMap (p : Threshold → Bool) (g : Threshold → ThresholdCallback)
    {m : ThresholdMap} {id : Symbol} {th : Threshold} (hn : (ThresholdMap.keys m).Nodup)
    (h : ThresholdMap.get? m id = some th) :
    eventsOf id (m.filterMap (fun e => if p e.2 then some (e.1, g e.2) else none)) =
      if p th then [g th] else [] := by
  induction m with
  | nil => simp [ThresholdMap.get?] at h
  | cons e m ih =>
    obtain ⟨k, t⟩ := e
    simp only [ThresholdMap.keys_cons, List.nodup_cons] at hn
    by_cases hk : k = id
    · subst hk
      rw [ThresholdMap.get?_cons_self] at h
      simp only [Option.some.injEq] at h
      subst h
      have hrest := eventsOf_filterMap_of_not_mem p g hn.1
      by_cases hp : p t = true
      · simp only [List.filterMap_cons, hp, if_true]
        rw [eventsOf_cons_self, hrest]
      · simp only [List.filterMap_cons, hp, if_false]
        simp only [Bool.false_eq_true, if_false]
        exact hrest
    · rw [ThresholdMap.get?_cons_ne _ _ hk] at h
      by_cases hp : p t = true
      · simp only [List.filterMap_cons, hp, if_true]
        rw [eventsOf_cons_ne _ _ hk]
        exact ih hn.2 h
      · simp only [List.filterMap_cons, hp, if_false]
        simp only [Bool.false_eq_true, if_false]
        exact ih hn.2 h

/-- What a call of `setTemperature` that completes does to one registered threshold. -/
theorem setTemperature_of_error_none {self : Thermometer} (hn : self.thresholds.keys.Nodup)
    {v : JSNumber} (hok : (self.setTemperature v).error = none) {id : Symbol} {th : Threshold}
    (hth : self.thresholds.get? id = some th) :
    (self.setTemperature v).self.thresholds.get? id = some ((self.record v).afterBody th) ∧
    eventsOf id (self.setTemperature v).calls =
      if (self.record v).fires th then [(self.record v).eventFor th] else [] := by
  have hv := Thermometer.not_nan_of_error_none hok
  rw [Thermometer.setTemperature_error hv] at hok
  obtain ⟨h1, h2⟩ := Thermometer.checkLoop_of_error_none hok
  rw [Thermometer.setTemperature_thresholds hv, Thermometer.setTemperature_calls hv, h1, h2]
  constructor
  · rw [get?_map_snd, hth]
    rfl
  · exact eventsOf_filterMap _ _ hn hth

theorem callbacksOk_setTemperature {self : Thermometer} (h : CallbacksOk self.thresholds)
    (v : JSNumber) : CallbacksOk (self.setTemperature v).self.thresholds := by
  cases hv : v.isNaN
  · intro e he ev
    rw [Thermometer.setTemperature_thresholds hv] at he
    obtain ⟨th, hmem, hor⟩ := Thermometer.checkLoop_entries_mem he
    rcases hor with hor | hor
    · rw [hor]
      exact h (e.1, th) hmem ev
    · rw [hor, Thermometer.afterBody_callback]
      exact h (e.1, th) hmem ev
  · rw [Thermometer.setTemperature_of_nan hv]
    exact h

theorem callbacksOk_addThreshold {self : Thermometer} (h : CallbacksOk self.thresholds)
    {config : ThresholdConfig} (hc : ∀ ev : ThresholdCallback, config.callback ev = Except.ok ()) :
    CallbacksOk (self.addThreshold config).1.thresholds := by
  intro e he ev
  simp only [Thermometer.addThreshold] at he
  rcases ThresholdMap.mem_set he with rfl | he
  · exact hc ev
  · exact h e he ev

theorem callbacksOk_removeThreshold {self : Thermometer} (h : CallbacksOk self.thresholds)
    (id : Symbol) : CallbacksOk (self.removeThreshold id).1.thresholds := by
  intro e he ev
  exact h e (ThresholdMap.mem_delete he).1 ev

theorem opsOk_cons {op : Op} {ops : List Op} (h : OpsOk (op :: ops)) :
    OpsOk [op] ∧ OpsOk ops := by
  cases op <;> simp_all [OpsOk]

theorem callbacksOk_step {self : Thermometer} (h : CallbacksOk self.thresholds) {op : Op}
    (hop : OpsOk [op]) : CallbacksOk (step self op).self.thresholds := by
  cases op with
  | setTemperature v => exact callbacksOk_setTemperature h v
  | addThreshold config => exact callbacksOk_addThreshold h hop.1
  | removeThreshold id => exact callbacksOk_removeThreshold h id

theorem callbacksOk_exec {self : Thermometer} (h : CallbacksOk self.thresholds) {ops : List Op}
    (hops : OpsOk ops) : CallbacksOk (exec self ops).thresholds := by
  induction ops generalizing self with
  | nil => exact h
  | cons op ops ih => exact ih (callbacksOk_step h (opsOk_cons hops).1) (opsOk_cons hops).2

theorem error_none_of_callbacksOk {self : Thermometer} (h : CallbacksOk self.thresholds)
    {v : JSNumber} (hv : v.isNaN = false) : (self.setTemperature v).error = none := by
  rw [Thermometer.setTemperature_error hv]
  exact Thermometer.checkLoop_error_none_of_ok (fun e he _ => h e he _)

theorem initialized_of_error_none {self : Thermometer} {v : JSNumber}
    (h : (self.setTemperature v).error = none) :
    (self.setTemperature v).self.initialized = true := by
  rw [Thermometer.setTemperature_initialized (Thermometer.not_nan_of_error_none h), h]
  rfl

/-- A threshold that stays registered shows, along a sequence of calls none of whose callbacks
throws, what the loop body alone computes from the values given to `setTemperature`. -/
theorem observe_eq_solo {self : Thermometer} (hinv : Inv self)
    (hcb : CallbacksOk self.thresholds) {id : Symbol} {th : Threshold}
    (hth : self.thresholds.get? id = some th) {ops : List Op} (hops : OpsOk ops)
    (hkeep : Keeps id ops) :
    observe id self ops = soloObserve th self.currentTemp self.initialized (readingsOf ops) := by
  induction ops generalizing self th with
  | nil => rfl
  | cons op ops ih =>
    have hops2 := (opsOk_cons hops).2
    have hkeep2 := (keeps_cons hkeep).2
    cases op with
    | setTemperature v =>
      cases hv : v.isNaN
      · have hok := error_none_of_callbacksOk hcb hv
        obtain ⟨h1, h2⟩ := setTemperature_of_error_none hinv.nodup hok hth
        have hrec := ih (inv_setTemperature hinv v) (callbacksOk_setTemperature hcb v) h1 hops2 hkeep2
        rw [Thermometer.setTemperature_currentTemp hv, initialized_of_error_none hok] at hrec
        simp only [observe, step, readingsOf, soloObserve, hv, Bool.false_eq_true, if_false]
        rw [hrec, h2]
        simp only [latchOf, h1, Option.map_some']
        rfl
      · have hrec := ih hinv hcb hth hops2 hkeep2
        simp only [observe, step, readingsOf, soloObserve, hv, if_true,
          Thermometer.setTemperature_of_nan hv]
        rw [hrec]
        simp [latchOf, hth, eventsOf]
    | addThreshold config =>
      have hne : id ≠ self.symbolCounter :=
        Nat.ne_of_lt (hinv.made id (ThresholdMap.mem_keys_of_get? hth))
      have hth2 : (self.addThreshold config).1.thresholds.get? id = some th := by
        simp only [Thermometer.addThreshold]
        rw [ThresholdMap.get?_set_ne _ _ hne]
        exact hth
      exact ih (inv_addThreshold hinv config) (callbacksOk_addThreshold hcb hops.1) hth2 hops2 hkeep2
    | removeThreshold k =>
      have hne : id ≠ k := Ne.symm hkeep.1
      have hth2 : (self.removeThreshold k).1.thresholds.get? id = some th := by
        simp only [Thermometer.removeThreshold]
        rw [ThresholdMap.get?_delete_ne _ hne]
        exact hth
      exact ih (inv_removeThreshold hinv k) (callbacksOk_removeThreshold hcb k) hth2 hops2 hkeep2

theorem observe_length (id : Symbol) (self : Thermometer) (ops : List Op) :
    (observe id self ops).length = (readingsOf ops).length := by
  induction ops generalizing self with
  | nil => rfl
  | cons op ops ih =>
    cases op with
    | setTemperature v => simp only [observe, readingsOf, List.length_cons, ih]
    | addThreshold config => exact ih _
    | removeThreshold k => exact ih _

/-! ## The loop body along a sequence of values -/

theorem fires_of_latched {self : Thermometer} {th : Threshold} (hl : th.lastTriggered = true) :
    self.fires th = false := by
  simp [Thermometer.fires, hl]

theorem soloObserve_cons {th : Threshold} {c : JSNumber} {init : Bool} {v : JSNumber}
    (vs : List JSNumber) (hv : v.isNaN = false) :
    soloObserve th c init (v :: vs) =
      ((if (storeOf c v init).fires th then [(storeOf c v init).eventFor th] else []),
          some ((storeOf c v init).afterBody th).lastTriggered) ::
        soloObserve ((storeOf c v init).afterBody th) v true vs := by
  simp [soloObserve, hv]

theorem solo_length_le_one (th : Threshold) (c : JSNumber) (init : Bool) (vs : List JSNumber) :
    ∀ o ∈ soloObserve th c init vs, o.1.length ≤ 1 := by
  induction vs generalizing th c init with
  | nil => simp [soloObserve]
  | cons v vs ih =>
    intro o ho
    cases hv : v.isNaN
    · rw [soloObserve_cons vs hv] at ho
      rcases List.mem_cons.mp ho with h | h
      · subst h
        simp only
        split_ifs <;> simp
      · exact ih _ _ _ o h
    · simp only [soloObserve, hv, if_true] at ho
      rcases List.mem_cons.mp ho with h | h
      · subst h
        simp
      · exact ih _ _ _ o h

/-- A latched threshold is not called before a value outside its band arrives. -/
theorem solo_latched {th : Threshold} (hl : th.lastTriggered = true) (c : JSNumber)
    (init : Bool) {vs : List JSNumber} (hreal : ∀ v ∈ vs, v.isNaN = false) {j : Nat}
    {o : List ThresholdCallback × Option Bool}
    (ho : (soloObserve th c init vs)[j]? = some o) (hne : o.1 ≠ []) :
    ∃ k, k < j ∧ ∃ v, vs[k]? = some v ∧
      Thermometer.isWithinTriggerTempRange v th = false := by
  induction vs generalizing th c init j with
  | nil => simp [soloObserve] at ho
  | cons v vs ih =>
    have hv := hreal v (List.mem_cons_self _ _)
    have hreal2 : ∀ u ∈ vs, u.isNaN = false := fun u hu => hreal u (List.mem_cons_of_mem _ hu)
    rw [soloObserve_cons vs hv] at ho
    cases j with
    | zero =>
      simp only [List.getElem?_cons_zero, Option.some.injEq] at ho
      subst ho
      simp [fires_of_latched hl] at hne
    | succ j =>
      simp only [List.getElem?_cons_succ] at ho
      cases hw : Thermometer.isWithinTriggerTempRange v th
      · exact ⟨0, Nat.succ_pos _, v, List.getElem?_cons_zero, hw⟩
      · have hsame : (storeOf c v init).afterBody th = th :=
          Thermometer.afterBody_of_within_not_fires hw (fires_of_latched hl)
        rw [hsame] at ho
        obtain ⟨k, hk, u, hu, hout⟩ := ih hl v true hreal2 ho
        exact ⟨k + 1, Nat.succ_lt_succ hk, u, by simpa using hu, hout⟩

/-- Between two calls of the callback of a threshold a value outside its band arrives. -/
theorem solo_between {th : Threshold} (c : JSNumber) (init : Bool) {vs : List JSNumber}
    (hreal : ∀ v ∈ vs, v.isNaN = false) {i j : Nat} (hij : i < j)
    {oi oj : List ThresholdCallback × Option Bool}
    (hoi : (soloObserve th c init vs)[i]? = some oi) (hi : oi.1 ≠ [])
    (hoj : (soloObserve th c init vs)[j]? = some oj) (hj : oj.1 ≠ []) :
    ∃ k, i < k ∧ k < j ∧ ∃ v, vs[k]? = some v ∧
      Thermometer.isWithinTriggerTempRange v th = false := by
  induction vs generalizing th c init i j with
  | nil => simp [soloObserve] at hoi
  | cons v vs ih =>
    have hv := hreal v (List.mem_cons_self _ _)
    have hreal2 : ∀ u ∈ vs, u.isNaN = false := fun u hu => hreal u (List.mem_cons_of_mem _ hu)
    rw [soloObserve_cons vs hv] at hoi hoj
    cases j with
    | zero => exact absurd hij (Nat.not_lt_zero _)
    | succ j =>
      simp only [List.getElem?_cons_succ] at hoj
      cases i with
      | zero =>
        simp only [List.getElem?_cons_zero, Option.some.injEq] at hoi
        subst hoi
        have hf : (storeOf c v init).fires th = true := by
          by_contra hf
          simp [hf] at hi
        obtain ⟨k, hk, u, hu, hout⟩ :=
          solo_latched (Thermometer.afterBody_of_fires hf) v true hreal2 hoj hj
        rw [Thermometer.isWithin_afterBody] at hout
        exact ⟨k + 1, Nat.succ_pos _, Nat.succ_lt_succ hk, u, by simpa using hu, hout⟩
      | succ i =>
        simp only [List.getElem?_cons_succ] at hoi
        obtain ⟨k, hik, hkj, u, hu, hout⟩ :=
          ih v true hreal2 (Nat.lt_of_succ_lt_succ hij) hoi hoj
        rw [Thermometer.isWithin_afterBody] at hout
        exact ⟨k + 1, Nat.succ_lt_succ hik, Nat.succ_lt_succ hkj, u, by simpa using hu, hout⟩

/-! ## One notification per visit (C1, C2) -/

theorem getElem?_of_callsAt_pos {id : Symbol} {self : Thermometer} {ops : List Op} {i : Nat}
    (h : 0 < callsAt id self ops i) :
    ∃ o, (observe id self ops)[i]? = some o ∧ o.1 ≠ [] := by
  unfold callsAt at h
  cases ho : (observe id self ops)[i]? with
  | none => simp [ho] at h
  | some o =>
    refine ⟨o, rfl, ?_⟩
    simp only [ho] at h
    exact List.ne_nil_of_length_pos h

theorem get?_addThreshold (self : Thermometer) (config : ThresholdConfig) :
    (self.addThreshold config).1.thresholds.get? (self.addThreshold config).2 =
      some (registered self config) :=
  ThresholdMap.get?_set_self _ _ _

/-- Claim C2: for a registered threshold of any direction and tolerance, in every sequence of
calls with values that are not `NaN`, callbacks that do not throw and the threshold never
removed, the callback is called at most once at each value, and between two values at which
it is called there is a value strictly between them that lies outside the tolerance band. -/
theorem at_most_once_per_visit (self : Thermometer) (hR : Reachable self)
    (hcb : CallbacksOk self.thresholds) (id : Symbol) (th : Threshold)
    (hth : self.thresholds.get? id = some th) (ops : List Op) (hops : OpsOk ops)
    (hkeep : Keeps id ops) (hreal : ∀ v ∈ readingsOf ops, v.isNaN = false) :
    (∀ i, callsAt id self ops i ≤ 1) ∧
    (∀ i j, i < j → 0 < callsAt id self ops i → 0 < callsAt id self ops j →
      ∃ k, i < k ∧ k < j ∧ ∃ v, (readingsOf ops)[k]? = some v ∧
        Thermometer.isWithinTriggerTempRange v th = false) := by
  have hsolo := observe_eq_solo (inv_of_reachable hR) hcb hth hops hkeep
  constructor
  · intro i
    unfold callsAt
    cases ho : (observe id self ops)[i]? with
    | none => exact Nat.zero_le _
    | some o =>
      rw [hsolo] at ho
      exact solo_length_le_one _ _ _ _ o (List.getElem?_mem ho)
  · intro i j hij hi hj
    obtain ⟨oi, hoi, hine⟩ := getElem?_of_callsAt_pos hi
    obtain ⟨oj, hoj, hjne⟩ := getElem?_of_callsAt_pos hj
    rw [hsolo] at hoi hoj
    exact solo_between _ _ hreal hij hoi hine hoj hjne

/-- The test "should not trigger multiple times within tolerance range" on two thresholds:
each callback is called once. -/
theorem stays_in_band_scenario :
    totalCalls 0 freezingAndBoiling staysInBand = 1 ∧
    totalCalls 1 freezingAndBoiling staysInBand = 1 := by
  decide!

/-- An instance, the threshold at 0 and the readings of that test, together with the test. -/
theorem at_most_once_per_visit_witness :
    ((∀ i, callsAt 0 freezingAndBoiling staysInBand i ≤ 1) ∧
    (∀ i j, i < j → 0 < callsAt 0 freezingAndBoiling staysInBand i →
      0 < callsAt 0 freezingAndBoiling staysInBand j →
      ∃ k, i < k ∧ k < j ∧ ∃ v, (readingsOf staysInBand)[k]? = some v ∧
        Thermometer.isWithinTriggerTempRange v freezingWide = false)) ∧
    (totalCalls 0 freezingAndBoiling staysInBand = 1 ∧
      totalCalls 1 freezingAndBoiling staysInBand = 1) :=
  ⟨at_most_once_per_visit freezingAndBoiling ⟨_, rfl⟩
    (@callbacksOk_exec Thermometer.new (fun _ he => absurd he (List.not_mem_nil _)) _
      ⟨fun _ => rfl, fun _ => rfl, trivial⟩)
    0 freezingWide rfl staysInBand (by simp [staysInBand, OpsOk]) (by simp [staysInBand, Keeps])
    (by decide!), stays_in_band_scenario⟩


/-! ## The reading store along a sequence of calls -/

theorem previousReading_cons_set {v : JSNumber} (ops : List Op) (hv : v.isNaN = false) :
    previousReading (.setTemperature v :: ops) = some ((previousReading ops).getD v) := by
  simp [previousReading, readingsOf, List.filter, hv, List.getLast?_cons]

theorem previousReading_cons_nan {v : JSNumber} (ops : List Op) (hv : v.isNaN = true) :
    previousReading (.setTemperature v :: ops) = previousReading ops := by
  simp [previousReading, readingsOf, List.filter, hv]

theorem previousReading_cons_add (config : ThresholdConfig) (ops : List Op) :
    previousReading (.addThreshold config :: ops) = previousReading ops := rfl

theorem previousReading_cons_remove (id : Symbol) (ops : List Op) :
    previousReading (.removeThreshold id :: ops) = previousReading ops := rfl

/-- The field `currentTemp` holds the last value given to `setTemperature` that was not
`NaN`, whether or not a callback threw. -/
theorem exec_currentTemp (self : Thermometer) (ops : List Op) :
    (exec self ops).currentTemp = (previousReading ops).getD self.currentTemp := by
  induction ops generalizing self with
  | nil => rfl
  | cons op ops ih =>
    cases op with
    | setTemperature v =>
      cases hv : v.isNaN
      · rw [previousReading_cons_set ops hv]
        simp only [exec, step, ih, Thermometer.setTemperature_currentTemp hv, Option.getD_some]
      · rw [previousReading_cons_nan ops hv]
        simp only [exec, step, ih, Thermometer.setTemperature_of_nan hv]
    | addThreshold config => exact ih _
    | removeThreshold id => exact ih _

/-- The flag `initialized` is set only by a `setTemperature` call with a value that is not
`NaN`. -/
theorem exec_initialized_imp (self : Thermometer) (ops : List Op)
    (h : (exec self ops).initialized = true) :
    self.initialized = true ∨ (previousReading ops).isSome = true := by
  induction ops generalizing self with
  | nil => exact Or.inl h
  | cons op ops ih =>
    cases op with
    | setTemperature v =>
      cases hv : v.isNaN
      · rw [previousReading_cons_set ops hv]
        exact Or.inr rfl
      · rw [previousReading_cons_nan ops hv]
        have h2 := ih _ h
        simp only [step, Thermometer.setTemperature_of_nan hv] at h2
        exact h2
    | addThreshold config => exact ih (step self (.addThreshold config)).self h
    | removeThreshold id => exact ih (step self (.removeThreshold id)).self h

/-- When no callback throws, the flag `initialized` tells whether a value that is not `NaN`
was given to `setTemperature`. -/
theorem exec_initialized {self : Thermometer} (hcb : CallbacksOk self.thresholds)
    {ops : List Op} (hops : OpsOk ops) :
    (exec self ops).initialized = (self.initialized || (previousReading ops).isSome) := by
  induction ops generalizing self with
  | nil => simp [exec, previousReading, readingsOf]
  | cons op ops ih =>
    have hops2 := (opsOk_cons hops).2
    cases op with
    | setTemperature v =>
      cases hv : v.isNaN
      · rw [previousReading_cons_set ops hv]
        have h2 := ih (callbacksOk_setTemperature hcb v) hops2
        simp only [exec, step, h2,
          initialized_of_error_none (error_none_of_callbacksOk hcb hv)]
        simp
      · rw [previousReading_cons_nan ops hv]
        have h2 := @ih self hcb hops2
        simp only [exec, step, Thermometer.setTemperature_of_nan hv]
        exact h2
    | addThreshold config => exact ih (callbacksOk_addThreshold hcb hops.1) hops2
    | removeThreshold id => exact ih (callbacksOk_removeThreshold hcb id) hops2

theorem previousReading_congr {ops1 ops2 : List Op} (h : readingsOf ops1 = readingsOf ops2) :
    previousReading ops1 = previousReading ops2 := by
  simp only [previousReading, h]

/-! ## Directional thresholds (C7) -/

/-- Claim C7: in every sequence of calls on a new thermometer, when `setTemperature(v)` calls
the callback of a threshold registered with direction `DECREASING`, a reading was recorded
before and `v` is strictly below the last one; for `INCREASING`, `v` is strictly above it;
and the event carries the direction the threshold was registered with. -/
theorem directional_fires_in_direction (ops : List Op) (v : JSNumber) (id : Symbol)
    (th : Threshold) (e : ThresholdCallback)
    (hth : (exec Thermometer.new ops).thresholds.get? id = some th)
    (hcall : (id, e) ∈ ((exec Thermometer.new ops).setTemperature v).calls) :
    (th.direction = Direction.DECREASING →
      ∃ u, previousReading ops = some u ∧ v.lt u = true ∧
        e.direction = Direction.DECREASING) ∧
    (th.direction = Direction.INCREASING →
      ∃ u, previousReading ops = some u ∧ v.gt u = true ∧
        e.direction = Direction.INCREASING) := by
  have hinv : Inv (exec Thermometer.new ops) := inv_exec inv_new ops
  have hv : v.isNaN = false := by
    cases hv : v.isNaN
    · rfl
    · rw [Thermometer.setTemperature_of_nan hv] at hcall
      exact absurd hcall (List.not_mem_nil _)
  rw [Thermometer.setTemperature_calls hv] at hcall
  obtain ⟨th1, hmem, hf, he⟩ := Thermometer.checkLoop_calls_mem hcall
  simp only at hmem he
  have h1 := ThresholdMap.get?_of_mem hinv.nodup hmem
  rw [hth] at h1
  simp only [Option.some.injEq] at h1
  subst h1
  obtain ⟨_, hmatch, _⟩ := (fires_record_iff _ _ _).mp hf
  have hprev : (exec Thermometer.new ops).initialized = true →
      ∃ u, previousReading ops = some u ∧ (exec Thermometer.new ops).currentTemp = u := by
    intro hi
    rcases exec_initialized_imp _ _ hi with h | h
    · exact absurd h (by simp [Thermometer.new])
    · obtain ⟨u, hu⟩ := Option.isSome_iff_exists.mp h
      exact ⟨u, hu, by rw [exec_currentTemp, hu]; rfl⟩
  constructor
  · intro hd
    rcases hmatch with h | h | h
    · rw [hd] at h
      exact absurd h (by simp)
    · rw [hd] at h
      exact absurd h.1 (by simp)
    · obtain ⟨u, hu, hcur⟩ := hprev h.2.1
      refine ⟨u, hu, hcur ▸ h.2.2, ?_⟩
      have hnot : (exec Thermometer.new ops).currentTemp.lt v = false :=
        JSNumber.lt_asymm h.2.2
      rw [he]
      simp [Thermometer.eventFor, Thermometer.resolvedDirection, Thermometer.isIncreasing,
        Thermometer.isDecreasing, Thermometer.record, JSNumber.gt, h.2.1, h.2.2, hnot]
  · intro hd
    rcases hmatch with h | h | h
    · rw [hd] at h
      exact absurd h (by simp)
    · obtain ⟨u, hu, hcur⟩ := hprev h.2.1
      refine ⟨u, hu, hcur ▸ h.2.2, ?_⟩
      rw [he]
      simp only [JSNumber.gt] at h
      simp [Thermometer.eventFor, Thermometer.resolvedDirection, Thermometer.isIncreasing,
        Thermometer.record, JSNumber.gt, h.2.1, h.2.2]
    · rw [hd] at h
      exact absurd h.1 (by simp)

/-- The test "should respect direction constraints": a decreasing threshold at 0 is not
called at the readings -1, 0 and is called once at the readings 1, 0 that follow. -/
theorem direction_constraints_scenario :
    (observe 0 decreasingAtZero
        [.setTemperature (.fin (-1)), .setTemperature 0, .setTemperature 1,
          .setTemperature 0]).map (fun o => o.1) =
      [[], [], [], [⟨0, 0, .DECREASING⟩]] := by
  decide!

/-- An instance, the last reading of that test, together with the whole test. -/
theorem directional_fires_in_direction_witness :
    ((falling.direction = Direction.DECREASING →
      ∃ u, previousReading decreasingAfterRise = some u ∧ (0 : JSNumber).lt u = true ∧
        (⟨0, 0, .DECREASING⟩ : ThresholdCallback).direction = Direction.DECREASING) ∧
    (falling.direction = Direction.INCREASING →
      ∃ u, previousReading decreasingAfterRise = some u ∧ (0 : JSNumber).gt u = true ∧
        (⟨0, 0, .DECREASING⟩ : ThresholdCallback).direction = Direction.INCREASING)) ∧
    (observe 0 decreasingAtZero
        [.setTemperature (.fin (-1)), .setTemperature 0, .setTemperature 1,
          .setTemperature 0]).map (fun o => o.1) =
      [[], [], [], [⟨0, 0, .DECREASING⟩]] :=
  ⟨directional_fires_in_direction decreasingAfterRise 0 0 falling ⟨0, 0, .DECREASING⟩
    (by with_unfolding_all rfl) (by decide!), direction_constraints_scenario⟩


/-! ## Thresholds do not interfere (C9) -/

theorem registered_eq_of_inv {s1 s2 : Thermometer} (h1 : Inv s1) (h2 : Inv s2)
    (config : ThresholdConfig) : registered s1 config = registered s2 config := by
  simp only [registered, h1.tolerance, h2.tolerance]

/-- Claim C9: take two sequences of calls on new thermometers, with callbacks that do not
throw, that give the same values to `setTemperature` and register a threshold `T` with the
same configuration at the same place among those values, and differ at will in the other
thresholds they register and remove.  At every value after the registration, `T` receives
the same events and has the same latch in both. -/
theorem thresholds_do_not_interfere (config : ThresholdConfig)
    (hcfg : ∀ ev : ThresholdCallback, config.callback ev = Except.ok ())
    (pre1 post1 pre2 post2 : List Op) (hpre1 : OpsOk pre1) (hpost1 : OpsOk post1)
    (hpre2 : OpsOk pre2) (hpost2 : OpsOk post2)
    (hpre : readingsOf pre1 = readingsOf pre2) (hpost : readingsOf post1 = readingsOf post2)
    (hkeep1 : Keeps ((exec Thermometer.new pre1).addThreshold config).2 post1)
    (hkeep2 : Keeps ((exec Thermometer.new pre2).addThreshold config).2 post2) :
    observe ((exec Thermometer.new pre1).addThreshold config).2
        ((exec Thermometer.new pre1).addThreshold config).1 post1 =
      observe ((exec Thermometer.new pre2).addThreshold config).2
        ((exec Thermometer.new pre2).addThreshold config).1 post2 := by
  have hnil : CallbacksOk Thermometer.new.thresholds :=
    fun _ he => absurd he (List.not_mem_nil _)
  have hi1 : Inv (exec Thermometer.new pre1) := inv_exec inv_new pre1
  have hi2 : Inv (exec Thermometer.new pre2) := inv_exec inv_new pre2
  have hc1 := callbacksOk_exec hnil hpre1
  have hc2 := callbacksOk_exec hnil hpre2
  rw [observe_eq_solo (inv_addThreshold hi1 config) (callbacksOk_addThreshold hc1 hcfg)
      (get?_addThreshold _ config) hpost1 hkeep1,
    observe_eq_solo (inv_addThreshold hi2 config) (callbacksOk_addThreshold hc2 hcfg)
      (get?_addThreshold _ config) hpost2 hkeep2,
    registered_eq_of_inv hi1 hi2 config, hpost]
  have hcur : ((exec Thermometer.new pre1).addThreshold config).1.currentTemp =
      ((exec Thermometer.new pre2).addThreshold config).1.currentTemp := by
    show (exec Thermometer.new pre1).currentTemp = (exec Thermometer.new pre2).currentTemp
    rw [exec_currentTemp, exec_currentTemp, previousReading_congr hpre]
  have hinit : ((exec Thermometer.new pre1).addThreshold config).1.initialized =
      ((exec Thermometer.new pre2).addThreshold config).1.initialized := by
    show (exec Thermometer.new pre1).initialized = (exec Thermometer.new pre2).initialized
    rw [exec_initialized hnil hpre1, exec_initialized hnil hpre2, previousReading_congr hpre]
  rw [hcur, hinit]

/-- The test "should handle multiple thresholds independent of direction": each of the two
callbacks is called twice. -/
theorem multiple_thresholds_scenario :
    totalCalls 0 freezingAndBoiling upAndDown = 2 ∧
    totalCalls 1 freezingAndBoiling upAndDown = 2 := by
  decide!

/-- An instance: the threshold at 0 of that test shows the same with and without the
threshold at 100; together with the test. -/
theorem thresholds_do_not_interfere_witness :
    observe ((exec Thermometer.new [.setTemperature 10]).addThreshold freezingConfig).2
        ((exec Thermometer.new [.setTemperature 10]).addThreshold freezingConfig).1
        (.addThreshold boilingConfig :: upAndDown) =
      observe ((exec Thermometer.new [.setTemperature 10]).addThreshold freezingConfig).2
        ((exec Thermometer.new [.setTemperature 10]).addThreshold freezingConfig).1
        upAndDown ∧
    (totalCalls 0 freezingAndBoiling upAndDown = 2 ∧
      totalCalls 1 freezingAndBoiling upAndDown = 2) :=
  ⟨thresholds_do_not_interfere freezingConfig (fun _ => rfl) [.setTemperature 10]
    (.addThreshold boilingConfig :: upAndDown) [.setTemperature 10] upAndDown trivial
    ⟨fun _ => rfl, trivial⟩ trivial trivial rfl rfl (by simp [upAndDown, Keeps])
    (by simp [upAndDown, Keeps]), multiple_thresholds_scenario⟩


/-! ## Removing a threshold (C10) -/

theorem step_symbolCounter_le (self : Thermometer) (op : Op) :
    self.symbolCounter ≤ (step self op).self.symbolCounter := by
  cases op with
  | setTemperature v =>
    simp only [step, Thermometer.setTemperature_symbolCounter]
    exact Nat.le_refl _
  | addThreshold config => exact Nat.le_succ _
  | removeThreshold k => exact Nat.le_refl _

theorem mem_keys_step_of_keeps {self : Thermometer} {id : Symbol}
    (h : id ∈ self.thresholds.keys) {op : Op} (hkeep : Keeps id [op]) :
    id ∈ (step self op).self.thresholds.keys := by
  cases op with
  | setTemperature v =>
    simp only [step, Thermometer.setTemperature_keys]
    exact h
  | addThreshold config =>
    exact (ThresholdMap.mem_keys_set _ _ _ _).mpr (Or.inr h)
  | removeThreshold k =>
    simp only [step, Thermometer.removeThreshold, ThresholdMap.keys_delete, List.mem_filter,
      bne_iff_ne, ne_eq]
    exact ⟨h, Ne.symm hkeep.1⟩

theorem mem_keys_exec_of_keeps {self : Thermometer} {id : Symbol}
    (h : id ∈ self.thresholds.keys) {ops : List Op} (hkeep : Keeps id ops) :
    id ∈ (exec self ops).thresholds.keys := by
  induction ops generalizing self with
  | nil => exact h
  | cons op ops ih =>
    exact ih (mem_keys_step_of_keeps h (keeps_cons hkeep).1) (keeps_cons hkeep).2

theorem not_mem_keys_step {self : Thermometer} {id : Symbol}
    (h : id ∉ self.thresholds.keys) (hid : id < self.symbolCounter) (op : Op) :
    id ∉ (step self op).self.thresholds.keys := by
  cases op with
  | setTemperature v =>
    simp only [step, Thermometer.setTemperature_keys]
    exact h
  | addThreshold config =>
    intro hmem
    rcases (ThresholdMap.mem_keys_set _ _ _ _).mp hmem with h1 | h1
    · exact absurd h1 (Nat.ne_of_lt hid)
    · exact h h1
  | removeThreshold k =>
    simp only [step, Thermometer.removeThreshold, ThresholdMap.keys_delete, List.mem_filter]
    exact fun hmem => h hmem.1

/-- A symbol already made and not registered is never registered again. -/
theorem not_mem_keys_exec {self : Thermometer} {id : Symbol}
    (h : id ∉ self.thresholds.keys) (hid : id < self.symbolCounter) (ops : List Op) :
    id ∉ (exec self ops).thresholds.keys ∧ id < (exec self ops).symbolCounter := by
  induction ops generalizing self with
  | nil => exact ⟨h, hid⟩
  | cons op ops ih =>
    exact ih (not_mem_keys_step h hid op)
      (Nat.lt_of_lt_of_le hid (step_symbolCounter_le self op))

theorem exec_symbolCounter_le (self : Thermometer) (ops : List Op) :
    self.symbolCounter ≤ (exec self ops).symbolCounter := by
  induction ops generalizing self with
  | nil => exact Nat.le_refl _
  | cons op ops ih => exact Nat.le_trans (step_symbolCounter_le self op) (ih _)

theorem eventsOf_setTemperature_of_not_mem {self : Thermometer} {id : Symbol}
    (h : id ∉ self.thresholds.keys) (v : JSNumber) :
    eventsOf id (self.setTemperature v).calls = [] := by
  cases hv : v.isNaN
  · rw [Thermometer.setTemperature_calls hv]
    exact Thermometer.eventsOf_checkLoop_of_not_mem h
  · rw [Thermometer.setTemperature_of_nan hv]
    rfl

theorem mem_keys_iff (m : ThresholdMap) (k : Symbol) :
    k ∈ ThresholdMap.keys m ↔ ∃ th, (k, th) ∈ m := by
  constructor
  · intro h
    obtain ⟨e, he, hk⟩ := List.mem_map.mp h
    exact ⟨e.2, by rw [← hk]; exact he⟩
  · rintro ⟨th, h⟩
    exact ThresholdMap.mem_keys_of_mem h

/-- The test "should add and remove thresholds": the first removal returns `true`, the second
one `false`. -/
theorem add_and_remove_scenario :
    (run Thermometer.new
        [.addThreshold { temp := 0, callback := okCallback }, .removeThreshold 0,
          .removeThreshold 0]).map (fun r => r.returned) =
      [.symbol 0, .boolean true, .boolean false] := by
  decide

/-- Claim C10: `removeThreshold(id)` returns `true` if and only if `id` is registered, and
`id` is not registered afterwards.  So for the symbol returned by an `addThreshold` call:
the first `removeThreshold` of it returns `true`, whatever else is registered or removed in
between; and after any further calls, a `removeThreshold` of it returns `false`, no
`setTemperature` calls the callback it was registered with, and no `addThreshold` returns
it again. -/
theorem remove_returns_true_once (self : Thermometer) (config : ThresholdConfig)
    (mid later : List Op) (hkeep : Keeps (self.addThreshold config).2 mid) :
    (∀ (t : Thermometer) (k : Symbol),
      ((t.removeThreshold k).2 = true ↔ ∃ th, (k, th) ∈ t.thresholds) ∧
      ∀ th, (k, th) ∉ (t.removeThreshold k).1.thresholds) ∧
    ((exec (self.addThreshold config).1 mid).removeThreshold (self.addThreshold config).2).2 =
      true ∧
    ((exec ((exec (self.addThreshold config).1 mid).removeThreshold
        (self.addThreshold config).2).1 later).removeThreshold
        (self.addThreshold config).2).2 = false ∧
    (∀ v, eventsOf (self.addThreshold config).2
      ((exec ((exec (self.addThreshold config).1 mid).removeThreshold
        (self.addThreshold config).2).1 later).setTemperature v).calls = []) ∧
    (∀ other, ((exec ((exec (self.addThreshold config).1 mid).removeThreshold
        (self.addThreshold config).2).1 later).addThreshold other).2 ≠
      (self.addThreshold config).2) := by
  have hdel : ∀ (t : Thermometer) (k : Symbol), k ∉ (t.removeThreshold k).1.thresholds.keys := by
    intro t k hmem
    simp [Thermometer.removeThreshold, ThresholdMap.keys_delete] at hmem
  have hreg : (self.addThreshold config).2 ∈ (self.addThreshold config).1.thresholds.keys :=
    ThresholdMap.mem_keys_of_get? (get?_addThreshold self config)
  have hmade : (self.addThreshold config).2 < (self.addThreshold config).1.symbolCounter :=
    Nat.lt_succ_self _
  have hmid := mem_keys_exec_of_keeps hreg hkeep
  have hmade2 : (self.addThreshold config).2 <
      ((exec (self.addThreshold config).1 mid).removeThreshold
        (self.addThreshold config).2).1.symbolCounter :=
    Nat.lt_of_lt_of_le hmade (exec_symbolCounter_le _ mid)
  obtain ⟨hgone, hmade3⟩ := not_mem_keys_exec (hdel _ _) hmade2 later
  refine ⟨?_, ?_, ?_, ?_, ?_⟩
  · intro t k
    constructor
    · rw [← mem_keys_iff]
      exact ThresholdMap.has_eq_true_iff _ _
    · intro th hmem
      exact hdel t k (ThresholdMap.mem_keys_of_mem hmem)
  · exact (ThresholdMap.has_eq_true_iff _ _).mpr hmid
  · cases hh : ((exec ((exec (self.addThreshold config).1 mid).removeThreshold
        (self.addThreshold config).2).1 later).removeThreshold
        (self.addThreshold config).2).2
    · rfl
    · exact absurd ((ThresholdMap.has_eq_true_iff _ _).mp hh) hgone
  · exact fun v => eventsOf_setTemperature_of_not_mem hgone v
  · intro other heq
    exact absurd heq (Nat.ne_of_gt hmade3)

/-- An instance: the threshold at 0 is registered, then the threshold at 100, the threshold
at 0 is removed and readings follow; together with the test on removal. -/
theorem remove_returns_true_once_witness :
    ((∀ (t : Thermometer) (k : Symbol),
      ((t.removeThreshold k).2 = true ↔ ∃ th, (k, th) ∈ t.thresholds) ∧
      ∀ th, (k, th) ∉ (t.removeThreshold k).1.thresholds) ∧
    ((exec (Thermometer.new.addThreshold freezingConfig).1
        [.addThreshold boilingConfig]).removeThreshold
        (Thermometer.new.addThreshold freezingConfig).2).2 = true ∧
    ((exec ((exec (Thermometer.new.addThreshold freezingConfig).1
        [.addThreshold boilingConfig]).removeThreshold
        (Thermometer.new.addThreshold freezingConfig).2).1 upAndDown).removeThreshold
        (Thermometer.new.addThreshold freezingConfig).2).2 = false ∧
    (∀ v, eventsOf (Thermometer.new.addThreshold freezingConfig).2
      ((exec ((exec (Thermometer.new.addThreshold freezingConfig).1
        [.addThreshold boilingConfig]).removeThreshold
        (Thermometer.new.addThreshold freezingConfig).2).1 upAndDown).setTemperature v).calls =
        []) ∧
    (∀ other, ((exec ((exec (Thermometer.new.addThreshold freezingConfig).1
        [.addThreshold boilingConfig]).removeThreshold
        (Thermometer.new.addThreshold freezingConfig).2).1 upAndDown).addThreshold other).2 ≠
      (Thermometer.new.addThreshold freezingConfig).2)) ∧
    (run Thermometer.new
        [.addThreshold { temp := 0, callback := okCallback }, .removeThreshold 0,
          .removeThreshold 0]).map (fun r => r.returned) =
      [.symbol 0, .boolean true, .boolean false] :=
  ⟨remove_returns_true_once Thermometer.new freezingConfig [.addThreshold boilingConfig]
    upAndDown trivial, add_and_remove_scenario⟩

/-! ## A negative tolerance (C11) -/

/-- Claim C11 as stated fails: `addThreshold` with the tolerance -1 on a new thermometer does
not throw; it returns a symbol and registers the threshold with that tolerance. -/
theorem negative_tolerance_counterexample :
    (JSNumber.fin (-1)).lt 0 = true ∧
    (step Thermometer.new (.addThreshold negativeTolerance)).returned = .symbol 0 ∧
    (step Thermometer.new (.addThreshold negativeTolerance)).self.thresholds.get? 0 =
      some ⟨0, okCallback, .BOTH, .fin (-1), false⟩ := by
  refine ⟨by decide, rfl, rfl⟩

/-- Claim C11, amended: `addThreshold` called with a negative tolerance does not fail; it
returns a new symbol and registers under it the threshold as configured, with that
tolerance and armed. -/
theorem negative_tolerance_registered (self : Thermometer) (config : ThresholdConfig)
    (tolerance : JSNumber) (htol : config.tolerance = some tolerance)
    (_hneg : tolerance.lt 0 = true) :
    (step self (.addThreshold config)).returned = .symbol self.symbolCounter ∧
    (step self (.addThreshold config)).self.thresholds.get? self.symbolCounter =
      some ⟨config.temp, config.callback, config.direction.getD .BOTH, tolerance, false⟩ := by
  refine ⟨rfl, ?_⟩
  have h := get?_addThreshold self config
  simp only [registered, htol, Option.getD_some] at h
  exact h

/-- An instance: the tolerance -1 on a new thermometer. -/
theorem negative_tolerance_registered_witness :
    (step Thermometer.new (.addThreshold negativeTolerance)).returned =
      .symbol Thermometer.new.symbolCounter ∧
    (step Thermometer.new (.addThreshold negativeTolerance)).self.thresholds.get?
        Thermometer.new.symbolCounter =
      some ⟨negativeTolerance.temp, negativeTolerance.callback,
        negativeTolerance.direction.getD .BOTH, .fin (-1), false⟩ :=
  negative_tolerance_registered Thermometer.new negativeTolerance (.fin (-1)) rfl (by decide)

/-! ## A value that is not a number (C12) -/

theorem checkLoop_error_some {self : Thermometer} {m : ThresholdMap} {msg : String}
    (h : (Thermometer.checkLoop self m).error = some msg) :
    ∃ id th, (id, th) ∈ m ∧
      (id, self.eventFor th) ∈ (Thermometer.checkLoop self m).calls ∧
      th.callback (self.eventFor th) = .error msg := by
  induction m with
  | nil => simp [Thermometer.checkLoop] at h
  | cons e m ih =>
    obtain ⟨k, t⟩ := e
    cases hb : Thermometer.checkBody self t with
    | next t1 call =>
      simp only [Thermometer.checkLoop, hb] at h ⊢
      obtain ⟨id, th, hmem, hcall, hthrow⟩ := ih h
      exact ⟨id, th, List.mem_cons_of_mem _ hmem, List.mem_append_right _ hcall, hthrow⟩
    | thrown m1 call =>
      obtain ⟨_, h2, h3⟩ := Thermometer.checkBody_thrown hb
      simp only [Thermometer.checkLoop, hb, Option.some.injEq] at h ⊢
      subst h
      exact ⟨k, t, List.mem_cons_self _ _, by simp [h2], h3⟩

/-- Claim C12: `setTemperature(v)` throws its own error 'Temperature must be a number' if and
only if `v` is `NaN`.  When `v` is `NaN` the thermometer is left as it was, all fields and
latches, and no callback is called.  When `v` is not `NaN`, an error that leaves the call is
one that a registered callback threw when the call invoked it; so if no callback throws that
message, the call throws it exactly when `v` is `NaN`. -/
theorem setTemperature_invalid_input (self : Thermometer) (v : JSNumber) :
    (v.isNaN = true →
      self.setTemperature v = ⟨self, [], some "Temperature must be a number"⟩) ∧
    (v.isNaN = false → ∀ msg, (self.setTemperature v).error = some msg →
      ∃ id th ev, (id, th) ∈ self.thresholds ∧ (id, ev) ∈ (self.setTemperature v).calls ∧
        th.callback ev = .error msg) ∧
    ((∀ e ∈ self.thresholds, ∀ ev : ThresholdCallback,
        e.2.callback ev ≠ .error "Temperature must be a number") →
      ((self.setTemperature v).error = some "Temperature must be a number" ↔
        v.isNaN = true)) := by
  have h2 : v.isNaN = false → ∀ msg, (self.setTemperature v).error = some msg →
      ∃ id th ev, (id, th) ∈ self.thresholds ∧ (id, ev) ∈ (self.setTemperature v).calls ∧
        th.callback ev = .error msg := by
    intro hv msg hmsg
    rw [Thermometer.setTemperature_error hv] at hmsg
    obtain ⟨id, th, hmem, hcall, hthrow⟩ := checkLoop_error_some hmsg
    rw [Thermometer.setTemperature_calls hv]
    exact ⟨id, th, _, hmem, hcall, hthrow⟩
  refine ⟨fun hv => Thermometer.setTemperature_of_nan hv, h2, ?_⟩
  intro hcb
  constructor
  · intro herr
    cases hv : v.isNaN
    · obtain ⟨id, th, ev, hmem, _, hthrow⟩ := h2 hv _ herr
      exact absurd hthrow (hcb (id, th) hmem ev)
    · rfl
  · intro hv
    rw [Thermometer.setTemperature_of_nan hv]

/-- An instance: `NaN` given to the thermometer of the tests on several thresholds. -/
theorem setTemperature_invalid_input_witness :
    (JSNumber.nan.isNaN = true →
      freezingAndBoiling.setTemperature .nan =
        ⟨freezingAndBoiling, [], some "Temperature must be a number"⟩) ∧
    (JSNumber.nan.isNaN = false → ∀ msg,
      (freezingAndBoiling.setTemperature .nan).error = some msg →
      ∃ id th ev, (id, th) ∈ freezingAndBoiling.thresholds ∧
        (id, ev) ∈ (freezingAndBoiling.setTemperature .nan).calls ∧
        th.callback ev = .error msg) ∧
    ((∀ e ∈ freezingAndBoiling.thresholds, ∀ ev : ThresholdCallback,
        e.2.callback ev ≠ .error "Temperature must be a number") →
      ((freezingAndBoiling.setTemperature .nan).error = some "Temperature must be a number" ↔
        JSNumber.nan.isNaN = true)) :=
  setTemperature_invalid_input freezingAndBoiling .nan

/-! ## Reading the temperature (C13, C14) -/

theorem exec_initialized_eq (self : Thermometer) (ops : List Op) :
    (exec self ops).initialized = (self.initialized || someReadingSucceeded self ops) := by
  induction ops generalizing self with
  | nil => simp [exec, someReadingSucceeded]
  | cons op ops ih =>
    cases op with
    | setTemperature v =>
      simp only [exec, step, someReadingSucceeded, ih]
      cases hv : v.isNaN
      · rw [Thermometer.setTemperature_initialized hv]
        cases he : (self.setTemperature v).error <;> simp
      · rw [Thermometer.setTemperature_of_nan hv]
        simp
    | addThreshold config => exact ih _
    | removeThreshold id => exact ih _

theorem exec_noReading_store {self : Thermometer} {ops : List Op} (h : NoReading ops) :
    (exec self ops).currentTemp = self.currentTemp ∧
    (exec self ops).previousTemp = self.previousTemp ∧
    (exec self ops).initialized = self.initialized := by
  induction ops generalizing self with
  | nil => exact ⟨rfl, rfl, rfl⟩
  | cons op ops ih =>
    cases op with
    | setTemperature v => exact absurd h (by simp [NoReading])
    | addThreshold config => exact @ih (step self (.addThreshold config)).self h
    | removeThreshold id => exact @ih (step self (.removeThreshold id)).self h

theorem getCelsius_error_iff (self : Thermometer) :
    self.getCelsius = .error "Temperature has not been set" ↔ self.initialized = false := by
  unfold Thermometer.getCelsius
  cases self.initialized <;> simp

theorem getFahrenheit_error_iff (self : Thermometer) :
    self.getFahrenheit = .error "Temperature has not been set" ↔ self.initialized = false := by
  unfold Thermometer.getFahrenheit
  cases self.initialized <;> simp

/-- Claim C13: on a thermometer made by `new` and any calls, `getCelsius` and `getFahrenheit`
throw 'Temperature has not been set' if and only if no `setTemperature` call has completed
yet; and after a `setTemperature(v)` that completes, `getCelsius` returns `v`, also after
thresholds are registered or removed. -/
theorem getters_fail_iff (ops : List Op) :
    ((exec Thermometer.new ops).getCelsius = .error "Temperature has not been set" ↔
      someReadingSucceeded Thermometer.new ops = false) ∧
    ((exec Thermometer.new ops).getFahrenheit = .error "Temperature has not been set" ↔
      someReadingSucceeded Thermometer.new ops = false) ∧
    (∀ v, ((exec Thermometer.new ops).setTemperature v).error = none →
      ∀ later, NoReading later →
        (exec ((exec Thermometer.new ops).setTemperature v).self later).getCelsius =
          .ok v) := by
  have hinit := exec_initialized_eq Thermometer.new ops
  have hnew : Thermometer.new.initialized = false := rfl
  rw [hnew, Bool.false_or] at hinit
  refine ⟨?_, ?_, ?_⟩
  · rw [getCelsius_error_iff, hinit]
  · rw [getFahrenheit_error_iff, hinit]
  · intro v hok later hlater
    obtain ⟨hcur, _, hi⟩ :=
      @exec_noReading_store ((exec Thermometer.new ops).setTemperature v).self later hlater
    unfold Thermometer.getCelsius
    rw [hi, hcur, initialized_of_error_none hok,
      Thermometer.setTemperature_currentTemp (Thermometer.not_nan_of_error_none hok)]
    rfl

/-- The test "should initialize at 0°C/32°F" and the getters before it: they throw on a new
thermometer, and after `setTemperature(0)` they return 0 and 32. -/
theorem initialize_scenario :
    Thermometer.new.getCelsius = .error "Temperature has not been set" ∧
    Thermometer.new.getFahrenheit = .error "Temperature has not been set" ∧
    (exec Thermometer.new [.setTemperature 0]).getCelsius = .ok 0 ∧
    (exec Thermometer.new [.setTemperature 0]).getFahrenheit = .ok 32 := by
  refine ⟨rfl, rfl, rfl, ?_⟩
  with_unfolding_all rfl

/-- An instance: a threshold is registered, 1 is read, and thresholds are registered and
removed afterwards; together with the test on the first reading. -/
theorem getters_fail_iff_witness :
    (((exec Thermometer.new [.addThreshold freezingConfig]).getCelsius =
        .error "Temperature has not been set" ↔
      someReadingSucceeded Thermometer.new [.addThreshold freezingConfig] = false) ∧
    ((exec Thermometer.new [.addThreshold freezingConfig]).getFahrenheit =
        .error "Temperature has not been set" ↔
      someReadingSucceeded Thermometer.new [.addThreshold freezingConfig] = false) ∧
    (∀ v, ((exec Thermometer.new [.addThreshold freezingConfig]).setTemperature v).error =
        none →
      ∀ later, NoReading later →
        (exec ((exec Thermometer.new [.addThreshold freezingConfig]).setTemperature v).self
          later).getCelsius = .ok v)) ∧
    (Thermometer.new.getCelsius = .error "Temperature has not been set" ∧
      Thermometer.new.getFahrenheit = .error "Temperature has not been set" ∧
      (exec Thermometer.new [.setTemperature 0]).getCelsius = .ok 0 ∧
      (exec Thermometer.new [.setTemperature 0]).getFahrenheit = .ok 32) :=
  ⟨getters_fail_iff [.addThreshold freezingConfig], initialize_scenario⟩

/-- Claim C16 as stated fails when a callback throws: with a threshold at 0 whose callback
throws, a response that is ok and carries the number 0 makes `fetchTemperature` fail with the
wrapped message of the callback, where `setTemperature(0)` fails with the bare message, and
`getCelsius` throws afterwards instead of returning 0. -/
theorem fetch_counterexample :
    (0 : JSNumber).isNaN = false ∧
    (throwingOnly.fetchTemperature (.response true 200 (.ok 0))).error =
      some "Failed to fetch temperature: callback failed" ∧
    (throwingOnly.setTemperature 0).error = some "callback failed" ∧
    (throwingOnly.fetchTemperature (.response true 200 (.ok 0))).self.getCelsius =
      .error "Temperature has not been set" := by
  refine ⟨rfl, ?_, ?_, ?_⟩ <;> with_unfolding_all rfl

/-- Claim C16, amended: when the response is ok and the parsed value is a number `t`,
`fetchTemperature` leaves the thermometer and calls the callbacks exactly as
`setTemperature(t)` does; if that call completes it completes too and `getCelsius` returns
`t` afterwards, and if a callback throws with message `m` during it, it fails with
'Failed to fetch temperature: ' followed by `m`.  When the fetch rejects with message `m`,
the status is not ok, the parsed value is `NaN`, or reading the body throws, it fails with
'Failed to fetch temperature: ' followed by the message of the cause, the thermometer is
unchanged and no callback is called. -/
theorem fetchTemperature_outcome (self : Thermometer) :
    (∀ status t, t.isNaN = false →
      (self.fetchTemperature (.response true status (.ok t))).self =
        (self.setTemperature t).self ∧
      (self.fetchTemperature (.response true status (.ok t))).calls =
        (self.setTemperature t).calls ∧
      (self.fetchTemperature (.response true status (.ok t))).error =
        (self.setTemperature t).error.map (fun m => "Failed to fetch temperature: " ++ m) ∧
      ((self.setTemperature t).error = none →
        (self.fetchTemperature (.response true status (.ok t))).self.getCelsius = .ok t)) ∧
    (∀ m, self.fetchTemperature (.rejected m) =
      ⟨self, [], some ("Failed to fetch temperature: " ++ m)⟩) ∧
    (∀ status body, self.fetchTemperature (.response false status body) =
      ⟨self, [],
        some ("Failed to fetch temperature: " ++ ("HTTP error! status: " ++ toString status))⟩) ∧
    (∀ status t, t.isNaN = true →
      self.fetchTemperature (.response true status (.ok t)) =
        ⟨self, [], some "Failed to fetch temperature: Invalid temperature value fetched"⟩) ∧
    (∀ status m, self.fetchTemperature (.response true status (.error m)) =
      ⟨self, [], some ("Failed to fetch temperature: " ++ m)⟩) := by
  refine ⟨?_, fun _ => rfl, fun _ _ => rfl, ?_, fun _ _ => rfl⟩
  · intro status t ht
    have hself : (self.fetchTemperature (.response true status (.ok t))).self =
        (self.setTemperature t).self := by
      simp only [Thermometer.fetchTemperature, ht, Bool.not_true, Bool.false_eq_true, if_false]
      split <;> rfl
    refine ⟨hself, ?_, ?_, ?_⟩
    · simp only [Thermometer.fetchTemperature, ht, Bool.not_true, Bool.false_eq_true, if_false]
      split <;> rfl
    · simp only [Thermometer.fetchTemperature, ht, Bool.not_true, Bool.false_eq_true, if_false]
      split
      · rename_i m hm
        rw [hm]
        rfl
      · rename_i hm
        rw [hm]
        rfl
    · intro hok
      rw [hself]
      unfold Thermometer.getCelsius
      rw [initialized_of_error_none hok, Thermometer.setTemperature_currentTemp ht]
      rfl
  · intro status t ht
    simp only [Thermometer.fetchTemperature, ht, Bool.not_true, Bool.false_eq_true, if_false,
      if_true]
    rfl

/-- The tests of `fetchTemperature`: a response that is ok with the number 23.5 sets the
temperature; a rejected fetch and a payload that is not a number fail with the wrapped
message and leave the new thermometer unset. -/
theorem fetch_scenario :
    (Thermometer.new.fetchTemperature
      (.response true 200 (.ok (.fin (47 / 2))))).self.getCelsius = .ok (.fin (47 / 2)) ∧
    (Thermometer.new.fetchTemperature (.rejected "Network error")).error =
      some "Failed to fetch temperature: Network error" ∧
    (Thermometer.new.fetchTemperature (.response true 200 (.ok .nan))).error =
      some "Failed to fetch temperature: Invalid temperature value fetched" := by
  refine ⟨rfl, rfl, rfl⟩

/-- An instance: a new thermometer; together with the tests. -/
theorem fetchTemperature_outcome_witness :
    ((Thermometer.new.setTemperature (.fin (47 / 2))).error = none →
      (Thermometer.new.fetchTemperature
        (.response true 200 (.ok (.fin (47 / 2))))).self.getCelsius = .ok (.fin (47 / 2))) ∧
    Thermometer.new.fetchTemperature (.rejected "Network error") =
      ⟨Thermometer.new, [], some ("Failed to fetch temperature: " ++ "Network error")⟩ ∧
    ((Thermometer.new.fetchTemperature
      (.response true 200 (.ok (.fin (47 / 2))))).self.getCelsius = .ok (.fin (47 / 2)) ∧
    (Thermometer.new.fetchTemperature (.rejected "Network error")).error =
      some "Failed to fetch temperature: Network error" ∧
    (Thermometer.new.fetchTemperature (.response true 200 (.ok .nan))).error =
      some "Failed to fetch temperature: Invalid temperature value fetched") :=
  ⟨((fetchTemperature_outcome Thermometer.new).1 200 (.fin (47 / 2)) rfl).2.2.2,
    (fetchTemperature_outcome Thermometer.new).2.1 "Network error", fetch_scenario⟩

/-! ## The order of the updates in `setTemperature` (C17) -/

theorem checkBody_congr {a b : Thermometer} (hc : a.currentTemp = b.currentTemp)
    (hp : a.previousTemp = b.previousTemp) (hi : a.initialized = b.initialized)
    (th : Threshold) : Thermometer.checkBody a th = Thermometer.checkBody b th := by
  simp only [Thermometer.checkBody, Thermometer.isMatchingDirection, Thermometer.isIncreasing,
    Thermometer.isDecreasing, Thermometer.eventFor, Thermometer.resolvedDirection, hc, hp, hi]

theorem checkLoop_congr {a b : Thermometer} (hc : a.currentTemp = b.currentTemp)
    (hp : a.previousTemp = b.previousTemp) (hi : a.initialized = b.initialized)
    (m : ThresholdMap) : Thermometer.checkLoop a m = Thermometer.checkLoop b m := by
  induction m with
  | nil => rfl
  | cons e m ih =>
    obtain ⟨k, th⟩ := e
    simp only [Thermometer.checkLoop, checkBody_congr hc hp hi th, ih]

/-- Claim C17 as stated fails at the first reading: in the test "should trigger callback when
tolerance is zero" the call `setTemperature(10)` completes and delivers the direction
`BOTH`, whereas a pass that observed previous = 0, current = 10 and initialized = true would
deliver `INCREASING`. -/
theorem evaluation_order_counterexample :
    ((Thermometer.new.addThreshold zeroTolerance).1.setTemperature 10).error = none ∧
    ((Thermometer.new.addThreshold zeroTolerance).1.setTemperature 10).calls =
      [(0, ⟨10, 10, .BOTH⟩)] ∧
    (Thermometer.checkLoop
      (storeOf (Thermometer.new.addThreshold zeroTolerance).1.currentTemp 10 true)
      (Thermometer.new.addThreshold zeroTolerance).1.thresholds).calls =
      [(0, ⟨10, 10, .INCREASING⟩)] := by
  refine ⟨?_, ?_, ?_⟩ <;> decide!

/-- Claim C17, amended: a `setTemperature(v)` that completes shifts current into previous
and sets current to `v` before the thresholds are evaluated, and marks `initialized` only
after the evaluation: the calls it makes and the thresholds it leaves are those of the loop
run on previous = the old current, current = `v` and `initialized` = the flag before the
call; afterwards previous = the old current, current = `v` and `initialized` = true. -/
theorem evaluation_order (self : Thermometer) (v : JSNumber)
    (hok : (self.setTemperature v).error = none) :
    (self.setTemperature v).calls =
      (Thermometer.checkLoop (storeOf self.currentTemp v self.initialized)
        self.thresholds).calls ∧
    (self.setTemperature v).self.thresholds =
      (Thermometer.checkLoop (storeOf self.currentTemp v self.initialized)
        self.thresholds).entries ∧
    (self.setTemperature v).self.previousTemp = self.currentTemp ∧
    (self.setTemperature v).self.currentTemp = v ∧
    (self.setTemperature v).self.initialized = true := by
  have hv := Thermometer.not_nan_of_error_none hok
  have hcongr : Thermometer.checkLoop (self.record v) self.thresholds =
      Thermometer.checkLoop (storeOf self.currentTemp v self.initialized) self.thresholds :=
    @checkLoop_congr (self.record v) (storeOf self.currentTemp v self.initialized)
      rfl rfl rfl self.thresholds
  refine ⟨?_, ?_, Thermometer.setTemperature_previousTemp hv,
    Thermometer.setTemperature_currentTemp hv, initialized_of_error_none hok⟩
  · rw [Thermometer.setTemperature_calls hv, hcongr]
  · rw [Thermometer.setTemperature_thresholds hv, hcongr]

/-- An instance: the first reading 10 of the test "should trigger callback when tolerance is
zero", evaluated with `initialized = false`. -/
theorem evaluation_order_witness :
    ((Thermometer.new.addThreshold zeroTolerance).1.setTemperature 10).calls =
      (Thermometer.checkLoop
        (storeOf (Thermometer.new.addThreshold zeroTolerance).1.currentTemp 10
          (Thermometer.new.addThreshold zeroTolerance).1.initialized)
        (Thermometer.new.addThreshold zeroTolerance).1.thresholds).calls ∧
    ((Thermometer.new.addThreshold zeroTolerance).1.setTemperature 10).self.thresholds =
      (Thermometer.checkLoop
        (storeOf (Thermometer.new.addThreshold zeroTolerance).1.currentTemp 10
          (Thermometer.new.addThreshold zeroTolerance).1.initialized)
        (Thermometer.new.addThreshold zeroTolerance).1.thresholds).entries ∧
    ((Thermometer.new.addThreshold zeroTolerance).1.setTemperature 10).self.previousTemp =
      (Thermometer.new.addThreshold zeroTolerance).1.currentTemp ∧
    ((Thermometer.new.addThreshold zeroTolerance).1.setTemperature 10).self.currentTemp = 10 ∧
    ((Thermometer.new.addThreshold zeroTolerance).1.setTemperature 10).self.initialized =
      true :=
  evaluation_order (Thermometer.new.addThreshold zeroTolerance).1 10 (by decide!)

/-! ## What the latch means (C18) -/

/-- The loop when a callback throws: the entries before the one that throws went through the
body, that entry and the ones after it are as they were, and the last call is the one that
threw. -/
theorem checkLoop_of_error_some {self : Thermometer} {m : ThresholdMap} {msg : String}
    (h : (Thermometer.checkLoop self m).error = some msg) :
    ∃ pre id th post, m = pre ++ (id, th) :: post ∧
      (Thermometer.checkLoop self pre).error = none ∧
      self.fires th = true ∧ th.callback (self.eventFor th) = .error msg ∧
      (Thermometer.checkLoop self m).entries =
        pre.map (fun e => (e.1, self.afterBody e.2)) ++ (id, th) :: post ∧
      (Thermometer.checkLoop self m).calls =
        (Thermometer.checkLoop self pre).calls ++ [(id, self.eventFor th)] := by
  induction m with
  | nil => simp [Thermometer.checkLoop] at h
  | cons e m ih =>
    obtain ⟨k, t⟩ := e
    cases hb : Thermometer.checkBody self t with
    | next t1 call =>
      obtain ⟨h1, _⟩ := Thermometer.checkBody_next hb
      simp only [Thermometer.checkLoop, hb] at h
      obtain ⟨pre, id, th, post, hm, hpre, hf, hthrow, hent, hcalls⟩ := ih h
      refine ⟨(k, t) :: pre, id, th, post, by rw [hm]; rfl, ?_, hf, hthrow, ?_, ?_⟩
      · simp only [Thermometer.checkLoop, hb]
        exact hpre
      · simp only [Thermometer.checkLoop, hb, hent, h1, List.map_cons, List.cons_append]
      · simp only [Thermometer.checkLoop, hb, hcalls, List.append_assoc]
    | thrown m1 call =>
      obtain ⟨hf, h2, h3⟩ := Thermometer.checkBody_thrown hb
      simp only [Thermometer.checkLoop, hb, Option.some.injEq] at h
      subst h
      refine ⟨[], k, t, m, rfl, rfl, hf, h3, ?_, ?_⟩
      · simp only [Thermometer.checkLoop, hb, List.map_nil, List.nil_append]
      · simp only [Thermometer.checkLoop, hb, h2, List.nil_append]

/-- What `setTemperature(v)` leaves when a callback throws during it: previous = the old
current and current = `v`; `initialized` is as before the call; the thresholds visited before
the one whose callback threw have the latch that the loop body gives them, and that
threshold and the ones after it are as they were. -/
theorem setTemperature_of_thrown {self : Thermometer} {v : JSNumber} (hv : v.isNaN = false)
    {msg : String} (h : (self.setTemperature v).error = some msg) :
    (self.setTemperature v).self.previousTemp = self.currentTemp ∧
    (self.setTemperature v).self.currentTemp = v ∧
    (self.setTemperature v).self.initialized = self.initialized ∧
    ∃ pre id th post, self.thresholds = pre ++ (id, th) :: post ∧
      th.callback ((self.record v).eventFor th) = .error msg ∧
      (self.setTemperature v).self.thresholds =
        pre.map (fun e => (e.1, (self.record v).afterBody e.2)) ++ (id, th) :: post := by
  refine ⟨Thermometer.setTemperature_previousTemp hv,
    Thermometer.setTemperature_currentTemp hv, ?_, ?_⟩
  · rw [Thermometer.setTemperature_initialized hv, h]
    simp
  · rw [Thermometer.setTemperature_error hv] at h
    obtain ⟨pre, id, th, post, hm, _, _, hthrow, hent, _⟩ := checkLoop_of_error_some h
    exact ⟨pre, id, th, post, hm, hthrow, by rw [Thermometer.setTemperature_thresholds hv, hent]⟩

/-- Claim C19 at a failing input: on a new thermometer with a threshold at 5 whose callback
throws and an increasing threshold at 7, `setTemperature(5)` fails with the error of the
callback and leaves previous = 0 and current = 5 but `initialized = false`, so `getCelsius`
throws 'Temperature has not been set'; and the next call `setTemperature(7)` is treated as a
first reading: it completes without calling the increasing threshold at 7, although 7 is in
its band and above the recorded 5. -/
theorem thrown_first_reading :
    (throwsThenRises.setTemperature 5).error = some "callback failed" ∧
    (throwsThenRises.setTemperature 5).self.previousTemp = 0 ∧
    (throwsThenRises.setTemperature 5).self.currentTemp = 5 ∧
    (throwsThenRises.setTemperature 5).self.initialized = false ∧
    (throwsThenRises.setTemperature 5).self.getCelsius =
      .error "Temperature has not been set" ∧
    ((throwsThenRises.setTemperature 5).self.setTemperature 7).error = none ∧
    ((throwsThenRises.setTemperature 5).self.setTemperature 7).calls = [] := by
  refine ⟨?_, ?_, ?_, ?_, ?_, ?_, ?_⟩
  · decide!
  · decide!
  · decide!
  · decide!
  · with_unfolding_all rfl
  · decide!
  · decide!

/-! ## Firing without a crossing (C20) -/

/-- A threshold that a reading enters against its direction stays as it is: when
`setTemperature(v)` completes with `v` in the band of a registered threshold whose direction
does not match the move, the callback is not called and the threshold, its latch included, is
unchanged. -/
theorem unchanged_against_direction {self : Thermometer} (hR : Reachable self) {v : JSNumber}
    (hok : (self.setTemperature v).error = none) {id : Symbol} {th : Threshold}
    (hth : self.thresholds.get? id = some th)
    (hin : Thermometer.isWithinTriggerTempRange v th = true)
    (hdir : (self.record v).isMatchingDirection th.direction = false) :
    eventsOf id (self.setTemperature v).calls = [] ∧
    (self.setTemperature v).self.thresholds.get? id = some th := by
  obtain ⟨h1, h2⟩ := setTemperature_of_error_none (inv_of_reachable hR).nodup hok hth
  have hf : (self.record v).fires th = false := by
    simp [Thermometer.fires, hdir]
  rw [h1, h2, hf, Thermometer.afterBody_of_within_not_fires hin hf]
  exact ⟨rfl, rfl⟩

/-- Claim C20: some directional threshold is called at a reading whose preceding reading was
already inside its band.  A decreasing threshold at 0 with tolerance 0.5 over the readings
-1, 0.3, 0.1 is called at 0.1 only, the reading 0.3 before it being in band; and when the
very first reading 0.3 is in band, it is called at the second reading 0.1. -/
theorem fires_without_crossing :
    (∃ (config : ThresholdConfig) (ops : List Op) (i : Nat),
      config.direction = some Direction.DECREASING ∧ 0 < i ∧
      inBandAt (registered Thermometer.new config) (readingsOf ops) (i - 1) = true ∧
      0 < callsAt (Thermometer.new.addThreshold config).2
        (Thermometer.new.addThreshold config).1 ops i) ∧
    decreasingAtZero.thresholds.get? 0 = some falling ∧
    ((observe 0 decreasingAtZero fallsInside).map (fun o => o.1) =
        [[], [], [⟨.fin (1 / 10), 0, .DECREASING⟩]] ∧
      inBandAt falling (readingsOf fallsInside) 1 = true) ∧
    ((observe 0 decreasingAtZero
        [.setTemperature (.fin (3 / 10)), .setTemperature (.fin (1 / 10))]).map
        (fun o => o.1) = [[], [⟨.fin (1 / 10), 0, .DECREASING⟩]] ∧
      Thermometer.isWithinTriggerTempRange (.fin (3 / 10)) falling = true) := by
  refine ⟨⟨decreasingConfig, fallsInside, 2, rfl, by decide, by decide!, by decide!⟩, rfl,
    ⟨by decide!, by decide!⟩, ⟨by decide!, by decide!⟩⟩

end Thermo
